import Mathlib

/-!
Shallow embedding of the NPC psychological-state core of the
AmongEqualsRLServer repository (src/src/models and src/src/utils),
together with theorems checking the specification claims against it.

Conventions of the embedding:
* Python floats are modelled as exact rationals (ℚ); all constants in the
  source are short decimals, so every comparison the claims depend on is
  far from any rounding boundary.
* Python methods that mutate `self` become functions returning a new value;
  methods that can raise `ValueError`/`KeyError` return `Except String`.
  An `Except.error` result carries no state, mirroring the fact that in
  the source every raise happens before any field assignment.
* Python dicts used as records become structures; dicts used as ordered
  maps become association lists preserving insertion order (Python 3.7+
  dict semantics).
* Wall-clock timestamps (`datetime.now()`) are threaded in as explicit
  `String` parameters named `now`; `isoformat`/`fromisoformat` round-trip
  is modelled as the identity on those strings.
* The numeric suffix `":{amount:.3f}"` that the source appends to healing
  log tags is abstracted: only the source tag is appended (no claim
  inspects the rendered decimals).
-/

namespace AmongEquals

/-- Sequencing of a Python `for` loop whose body may raise: the loop either
produces the list of all results or stops at the first error, with no
partial output. -/
def mapME {α β : Type} (f : α → Except String β) : List α → Except String (List β)
  | [] => .ok []
  | a :: l =>
    match f a with
    | .error e => .error e
    | .ok b =>
      match mapME f l with
      | .error e => .error e
      | .ok l' => .ok (b :: l')

/-! ## TraumaMemory (src/src/models/trauma.py, class TraumaMemory) -/

/-- One traumatic experience.  `timestamp` is the stored isoformat string. -/
structure TraumaMemory where
  event_type : String
  original_impact : ℚ
  current_impact : ℚ
  age_when_occurred : ℤ
  description : String
  related_npcs : List String
  healing_activities : List String
  timestamp : String
  deriving Repr, DecidableEq

namespace TraumaMemory

/-- `__post_init__` validation of a TraumaMemory. -/
def valid (m : TraumaMemory) : Prop :=
  0 ≤ m.original_impact ∧ 0 ≤ m.current_impact ∧
  m.current_impact ≤ m.original_impact ∧ 0 ≤ m.age_when_occurred

instance : DecidablePred valid := fun m => by unfold valid; infer_instance

/-- Constructing a TraumaMemory runs `__post_init__`, which raises on bad data. -/
def mk? (event_type : String) (original_impact current_impact : ℚ)
    (age_when_occurred : ℤ) (description : String) (related_npcs : List String)
    (healing_activities : List String) (timestamp : String) :
    Except String TraumaMemory :=
  if original_impact < 0 then .error "Original impact cannot be negative"
  else if current_impact < 0 then .error "Current impact cannot be negative"
  else if original_impact < current_impact then
    .error "Current impact cannot exceed original impact"
  else if age_when_occurred < 0 then .error "Age when occurred must be non-negative"
  else .ok ⟨event_type, original_impact, current_impact, age_when_occurred,
            description, related_npcs, healing_activities, timestamp⟩

/-- `scar_threshold` property: the floor below which healing cannot go. -/
def scar_threshold (m : TraumaMemory) : ℚ :=
  if m.original_impact ≤ 1/2 then 0
  else if m.original_impact ≤ 1 then m.original_impact * (1/10)
  else m.original_impact * (3/10)

/-- `is_fully_healed` property. -/
def is_fully_healed (m : TraumaMemory) : Bool :=
  m.current_impact ≤ m.scar_threshold

/-- `apply_healing`: raises on a negative amount, otherwise lowers
`current_impact` to at most the scar threshold and logs the source tag
when any healing was realised. -/
def apply_healing (m : TraumaMemory) (healing_amount : ℚ) (healing_source : String) :
    Except String TraumaMemory :=
  if healing_amount < 0 then .error "Healing amount must be non-negative"
  else
    let old_impact := m.current_impact
    let new_impact := max m.scar_threshold (m.current_impact - healing_amount)
    let actual_healing := old_impact - new_impact
    .ok { m with
          current_impact := new_impact,
          healing_activities :=
            if 0 < actual_healing then m.healing_activities ++ [healing_source]
            else m.healing_activities }

end TraumaMemory

/-! ## Basic lemmas about a single healing step -/

namespace TraumaMemory

theorem scar_threshold_nonneg {m : TraumaMemory} (h : 0 ≤ m.original_impact) :
    0 ≤ m.scar_threshold := by
  unfold scar_threshold
  split
  · exact le_refl 0
  · split <;> positivity

theorem scar_threshold_le_original {m : TraumaMemory} (h : 0 ≤ m.original_impact) :
    m.scar_threshold ≤ m.original_impact := by
  unfold scar_threshold
  split
  · exact h
  · split <;> nlinarith

theorem apply_healing_ok {m m' : TraumaMemory} {a : ℚ} {s : String}
    (h : m.apply_healing a s = .ok m') :
    0 ≤ a ∧
    m'.current_impact = max m.scar_threshold (m.current_impact - a) ∧
    m'.original_impact = m.original_impact ∧
    m'.event_type = m.event_type := by
  unfold apply_healing at h
  split at h
  · exact absurd h (by simp)
  · refine ⟨by linarith [not_lt.mp (by assumption)], ?_, ?_, ?_⟩ <;>
      simp only [Except.ok.injEq] at h <;> subst h <;> rfl

theorem scar_threshold_congr {m m' : TraumaMemory}
    (h : m'.original_impact = m.original_impact) :
    m'.scar_threshold = m.scar_threshold := by
  unfold scar_threshold
  rw [h]

/-- After a successful heal on a memory whose current impact is at least the
scar threshold, the impact stays in the band
`[scar_threshold, old current_impact]`. -/
theorem apply_healing_band {m m' : TraumaMemory} {a : ℚ} {s : String}
    (hge : m.scar_threshold ≤ m.current_impact)
    (h : m.apply_healing a s = .ok m') :
    m'.scar_threshold ≤ m'.current_impact ∧
    m'.current_impact ≤ m.current_impact ∧
    m'.original_impact = m.original_impact := by
  obtain ⟨ha, hc, ho, -⟩ := apply_healing_ok h
  have hsc : m'.scar_threshold = m.scar_threshold := scar_threshold_congr ho
  refine ⟨?_, ?_, ho⟩
  · rw [hsc, hc]; exact le_max_left _ _
  · rw [hc]; exact max_le hge (by linarith)

end TraumaMemory

/-! ## PersonalityTraits (src/src/models/personality.py) -/

/-- The eight bounded personality traits. -/
structure PersonalityTraits where
  greed : ℚ := 1/2
  sociability : ℚ := 1/2
  laziness : ℚ := 1/2
  ambition : ℚ := 1/2
  forgiveness : ℚ := 1/2
  courage : ℚ := 1/2
  analytical : ℚ := 1/2
  impulsiveness : ℚ := 1/2
  deriving Repr, DecidableEq

namespace PersonalityTraits

def traitNames : List String :=
  ["greed", "sociability", "laziness", "ambition",
   "forgiveness", "courage", "analytical", "impulsiveness"]

/-- `__post_init__` validation: every trait in [0, 1]. -/
def valid (p : PersonalityTraits) : Prop :=
  (0 ≤ p.greed ∧ p.greed ≤ 1) ∧ (0 ≤ p.sociability ∧ p.sociability ≤ 1) ∧
  (0 ≤ p.laziness ∧ p.laziness ≤ 1) ∧ (0 ≤ p.ambition ∧ p.ambition ≤ 1) ∧
  (0 ≤ p.forgiveness ∧ p.forgiveness ≤ 1) ∧ (0 ≤ p.courage ∧ p.courage ≤ 1) ∧
  (0 ≤ p.analytical ∧ p.analytical ≤ 1) ∧
  (0 ≤ p.impulsiveness ∧ p.impulsiveness ≤ 1)

instance : DecidablePred valid := fun p => by unfold valid; infer_instance

/-- `getattr` on a trait name. -/
def get_trait (p : PersonalityTraits) : String → Option ℚ
  | "greed" => some p.greed
  | "sociability" => some p.sociability
  | "laziness" => some p.laziness
  | "ambition" => some p.ambition
  | "forgiveness" => some p.forgiveness
  | "courage" => some p.courage
  | "analytical" => some p.analytical
  | "impulsiveness" => some p.impulsiveness
  | _ => none

/-- `setattr` on a known trait name (used only with names from `traitNames`). -/
def setTraitRaw (p : PersonalityTraits) (trait_name : String) (value : ℚ) :
    PersonalityTraits :=
  match trait_name with
  | "greed" => { p with greed := value }
  | "sociability" => { p with sociability := value }
  | "laziness" => { p with laziness := value }
  | "ambition" => { p with ambition := value }
  | "forgiveness" => { p with forgiveness := value }
  | "courage" => { p with courage := value }
  | "analytical" => { p with analytical := value }
  | "impulsiveness" => { p with impulsiveness := value }
  | _ => p

/-- `set_trait`: name validated, then range validated, then assignment. -/
def set_trait (p : PersonalityTraits) (trait_name : String) (value : ℚ) :
    Except String PersonalityTraits :=
  match p.get_trait trait_name with
  | none => .error "Unknown trait"
  | some _ =>
    if value < 0 ∨ 1 < value then
      .error "Trait value must be between 0.0 and 1.0"
    else .ok (p.setTraitRaw trait_name value)

end PersonalityTraits

/-! ## TraumaState (src/src/models/trauma.py, class TraumaState) -/

/-- Complete trauma state for an NPC.  `healing_progress` is an
insertion-ordered dict that the class only stores and serializes. -/
structure TraumaState where
  memories : List TraumaMemory := []
  healing_progress : List (String × ℚ) := []
  last_healing_activity : Option String := none
  natural_healing_rate : ℚ := 1/1000
  deriving Repr, DecidableEq

namespace TraumaState

/-- `add_trauma`: validates, then appends a fresh memory with
`current_impact = original_impact`. -/
def add_trauma (ts : TraumaState) (event_type : String) (impact : ℚ) (age : ℤ)
    (description : String) (related_npcs : List String) (now : String) :
    Except String (TraumaState × TraumaMemory) :=
  if impact < 0 then .error "Trauma impact must be non-negative"
  else if age < 0 then .error "Age must be non-negative"
  else
    let memory : TraumaMemory :=
      ⟨event_type, impact, impact, age, description, related_npcs, [], now⟩
    .ok ({ ts with memories := ts.memories ++ [memory] }, memory)

/-- Healing-rate multiplier derived from personality (apply_daily_healing). -/
def healingMultiplier (p : PersonalityTraits) : ℚ :=
  p.forgiveness * (1/2) + (1 - p.impulsiveness) * (3/10) +
  p.analytical * (1/5) + (1 - p.laziness) * (1/5)

/-- `apply_daily_healing`: natural healing applied to every
not-fully-healed memory independently. -/
def apply_daily_healing (ts : TraumaState) (p : PersonalityTraits)
    (days_passed : ℤ) : Except String TraumaState :=
  let daily_healing := ts.natural_healing_rate * healingMultiplier p * days_passed
  match mapME (fun m =>
      if m.is_fully_healed then .ok m
      else m.apply_healing daily_healing "natural_healing") ts.memories with
  | .error e => .error e
  | .ok ms => .ok { ts with memories := ms }

/-- The fixed activity-effectiveness table: effective event types and a
general effectiveness, in source order. -/
def activityEffectiveness : List (String × List String × ℚ) :=
  [("prayer", (["guilt", "loss_of_purpose", "moral_failure"], 4/5)),
   ("meditation", (["anxiety", "leadership_failure", "social_rejection"], 9/10)),
   ("socializing", (["social_rejection", "isolation", "betrayal"], 7/10)),
   ("helping_others", (["guilt", "selfishness", "leadership_failure"], 4/5)),
   ("crafting", (["depression", "purposelessness", "resource_loss"], 3/5)),
   ("storytelling", (["all"], 1)),
   ("physical_exercise", (["anxiety", "depression", "violence"], 7/10))]

/-- Per-memory effectiveness used by `apply_activity_healing`. -/
def activityEffectForMemory (activity : String) (effective_types : List String)
    (base : ℚ) (traits : Option PersonalityTraits) (m : TraumaMemory) : ℚ :=
  let e0 : ℚ :=
    if "all" ∈ effective_types ∨ m.event_type ∈ effective_types then base * (3/2)
    else base * (1/2)
  match traits with
  | none => e0
  | some p =>
    if activity = "socializing" ∧ 7/10 < p.sociability then e0 * (13/10)
    else if activity = "meditation" ∧ 7/10 < p.analytical then e0 * (6/5)
    else if activity = "helping_others" ∧ 7/10 < p.forgiveness then e0 * (6/5)
    else e0

/-- `apply_activity_healing`: validates the amount, records the activity,
and heals every not-fully-healed memory with an activity- and
personality-scaled amount. -/
def apply_activity_healing (ts : TraumaState) (activity : String)
    (healing_amount : ℚ) (traits : Option PersonalityTraits) :
    Except String TraumaState :=
  if healing_amount < 0 then .error "Healing amount must be non-negative"
  else
    let cfg := (activityEffectiveness.lookup activity).getD ([], 1/2)
    match mapME (fun m =>
        if m.is_fully_healed then .ok m
        else
          let eff := activityEffectForMemory activity cfg.1 cfg.2 traits m
          m.apply_healing (healing_amount * eff) ("activity_" ++ activity))
        ts.memories with
    | .error e => .error e
    | .ok ms => .ok { ts with memories := ms, last_healing_activity := some activity }

/-- The trauma-type → counter-experience table, in source order. -/
def counterMappings : List (String × List String) :=
  [("betrayal", ["trust_restoration", "loyalty_demonstrated"]),
   ("leadership_failure", ["leadership_success", "recognition"]),
   ("social_rejection", ["social_acceptance", "friendship_formed"]),
   ("resource_loss", ["resource_security", "abundance_experienced"]),
   ("violence", ["safety_provided", "protection_received"]),
   ("abandonment", ["loyalty_shown", "commitment_demonstrated"])]

/-- One pass of counter-experience healing for a single trauma type. -/
def counterHealType (counter_event_type : String) (positive_impact : ℚ)
    (trauma_type : String) (counter_types : List String) (ms : List TraumaMemory) :
    Except String (List TraumaMemory) :=
  if counter_event_type ∈ counter_types then
    mapME (fun m =>
      if m.event_type = trauma_type ∧ ¬ m.is_fully_healed then
        m.apply_healing (min (positive_impact * (3/5)) (m.current_impact * (4/5)))
          ("counter_experience_" ++ counter_event_type)
      else .ok m) ms
  else .ok ms

/-- The loop of `apply_counter_experience_healing` over the counter-mapping
entries, in source order. -/
def counterFold (counter_event_type : String) (positive_impact : ℚ) :
    List (String × List String) → List TraumaMemory →
    Except String (List TraumaMemory)
  | [], ms => .ok ms
  | entry :: rest, ms =>
    match counterHealType counter_event_type positive_impact entry.1 entry.2 ms with
    | .error e => .error e
    | .ok ms' => counterFold counter_event_type positive_impact rest ms'

/-- `apply_counter_experience_healing`: validates, then walks the counter
mapping in source order healing matching trauma memories. -/
def apply_counter_experience_healing (ts : TraumaState)
    (counter_event_type : String) (positive_impact : ℚ) :
    Except String TraumaState :=
  if positive_impact < 0 then .error "Positive impact must be non-negative"
  else
    match counterFold counter_event_type positive_impact counterMappings
        ts.memories with
    | .error e => .error e
    | .ok ms => .ok { ts with memories := ms }

/-- Direct `apply_healing` on the i-th memory of the ledger (the caller in
the source holds a reference to one `TraumaMemory` and heals it). -/
def heal_memory_at (ts : TraumaState) (i : ℕ) (amount : ℚ) (source : String) :
    Except String TraumaState :=
  match ts.memories[i]? with
  | none => .error "no such memory"
  | some m =>
    match m.apply_healing amount source with
    | .error e => .error e
    | .ok m' => .ok { ts with memories := ts.memories.set i m' }

end TraumaState

/-! ## Sequences of healing operations over a TraumaState -/

/-- The healing operations the ledger exposes: a direct `apply_healing` on
one memory, daily natural healing, activity healing and counter-experience
healing. -/
inductive HealOp where
  | heal (i : ℕ) (amount : ℚ) (source : String)
  | daily (p : PersonalityTraits) (days_passed : ℤ)
  | activity (activity : String) (amount : ℚ) (traits : Option PersonalityTraits)
  | counter (event : String) (positive_impact : ℚ)

def applyHealOp (ts : TraumaState) : HealOp → Except String TraumaState
  | .heal i a s => ts.heal_memory_at i a s
  | .daily p d => ts.apply_daily_healing p d
  | .activity act a tr => ts.apply_activity_healing act a tr
  | .counter e v => ts.apply_counter_experience_healing e v

def applyHealOps : TraumaState → List HealOp → Except String TraumaState
  | ts, [] => .ok ts
  | ts, op :: ops =>
    match applyHealOp ts op with
    | .error e => .error e
    | .ok ts' => applyHealOps ts' ops

/-- A memory evolves into another by zero or more successful
`apply_healing` steps. -/
def HealsTo : TraumaMemory → TraumaMemory → Prop :=
  Relation.ReflTransGen (fun m m' => ∃ a s, m.apply_healing a s = .ok m')

theorem healsTo_refl (m : TraumaMemory) : HealsTo m m :=
  Relation.ReflTransGen.refl

theorem healsTo_trans {a b c : TraumaMemory} (h₁ : HealsTo a b) (h₂ : HealsTo b c) :
    HealsTo a c :=
  Relation.ReflTransGen.trans h₁ h₂

/-- Along any chain of successful heals starting at or above the scar
threshold, the impact stays in the band and the original impact is fixed. -/
theorem healsTo_band {m m' : TraumaMemory} (h : HealsTo m m')
    (hge : m.scar_threshold ≤ m.current_impact) :
    m'.scar_threshold ≤ m'.current_impact ∧
    m'.current_impact ≤ m.current_impact ∧
    m'.original_impact = m.original_impact := by
  induction h with
  | refl => exact ⟨hge, le_refl _, rfl⟩
  | tail _ hstep ih =>
    obtain ⟨a, s, hok⟩ := hstep
    obtain ⟨ih₁, ih₂, ih₃⟩ := ih
    obtain ⟨b₁, b₂, b₃⟩ := TraumaMemory.apply_healing_band ih₁ hok
    exact ⟨b₁, le_trans b₂ ih₂, b₃.trans ih₃⟩

theorem forall₂_self {α : Type} {R : α → α → Prop} (hrefl : ∀ x, R x x) :
    ∀ l : List α, List.Forall₂ R l l
  | [] => List.Forall₂.nil
  | _ :: l => List.Forall₂.cons (hrefl _) (forall₂_self hrefl l)

theorem forall₂_healsTo_trans :
    ∀ {l₁ l₂ l₃ : List TraumaMemory}, List.Forall₂ HealsTo l₁ l₂ →
      List.Forall₂ HealsTo l₂ l₃ → List.Forall₂ HealsTo l₁ l₃
  | _, _, _, List.Forall₂.nil, List.Forall₂.nil => List.Forall₂.nil
  | _, _, _, List.Forall₂.cons h₁ t₁, List.Forall₂.cons h₂ t₂ =>
    List.Forall₂.cons (healsTo_trans h₁ h₂) (forall₂_healsTo_trans t₁ t₂)

theorem mapME_ok_forall₂ {α β : Type} {f : α → Except String β} :
    ∀ {l : List α} {l' : List β}, mapME f l = .ok l' →
      List.Forall₂ (fun a b => f a = .ok b) l l' := by
  intro l
  induction l with
  | nil => intro l' h; simp only [mapME, Except.ok.injEq] at h; subst h; constructor
  | cons a t ih =>
    intro l' h
    simp only [mapME] at h
    split at h
    · exact absurd h (by simp)
    · rename_i b hfa
      split at h
      · exact absurd h (by simp)
      · rename_i tb hft
        simp only [Except.ok.injEq] at h
        subst h
        exact List.Forall₂.cons hfa (ih hft)

theorem forall₂_set_of_getElem {α : Type} {R : α → α → Prop}
    (hrefl : ∀ x, R x x) :
    ∀ {l : List α} {i : ℕ} {m m' : α}, l[i]? = some m → R m m' →
      List.Forall₂ R l (l.set i m') := by
  intro l
  induction l with
  | nil => intro i m m' h; simp at h
  | cons x t ih =>
    intro i m m' h hR
    cases i with
    | zero =>
      simp only [List.getElem?_cons_zero, Option.some.injEq] at h
      subst h
      exact List.Forall₂.cons hR (forall₂_self hrefl t)
    | succ j =>
      simp only [List.getElem?_cons_succ] at h
      exact List.Forall₂.cons (hrefl x) (ih h hR)

/-- A single-step heal relation from one successful `apply_healing`. -/
theorem healsTo_single {m m' : TraumaMemory} {a : ℚ} {s : String}
    (h : m.apply_healing a s = .ok m') : HealsTo m m' :=
  Relation.ReflTransGen.single ⟨a, s, h⟩

/-- A conditional heal-or-skip loop body yields a `HealsTo` step. -/
theorem healsTo_of_cond {m m' : TraumaMemory} {c : Prop} [Decidable c]
    {a : ℚ} {s : String}
    (hmm : (if c then Except.ok m else m.apply_healing a s) = .ok m') :
    HealsTo m m' := by
  split at hmm
  · simp only [Except.ok.injEq] at hmm
    exact hmm ▸ healsTo_refl m
  · exact healsTo_single hmm

theorem counterFold_forall₂ {e : String} {v : ℚ} :
    ∀ {entries : List (String × List String)} {ms ms' : List TraumaMemory},
      TraumaState.counterFold e v entries ms = .ok ms' →
      List.Forall₂ HealsTo ms ms' := by
  intro entries
  induction entries with
  | nil =>
    intro ms ms' h
    simp only [TraumaState.counterFold, Except.ok.injEq] at h
    subst h
    exact forall₂_self healsTo_refl ms
  | cons entry rest ih =>
    intro ms ms' h
    simp only [TraumaState.counterFold] at h
    split at h
    · exact absurd h (by simp)
    · rename_i ms₁ hstep
      refine forall₂_healsTo_trans ?_ (ih h)
      unfold TraumaState.counterHealType at hstep
      split at hstep
      · refine List.Forall₂.imp ?_ (mapME_ok_forall₂ hstep)
        intro m m' hmm
        split at hmm
        · exact healsTo_single hmm
        · simp only [Except.ok.injEq] at hmm
          exact hmm ▸ healsTo_refl m
      · simp only [Except.ok.injEq] at hstep
        subst hstep
        exact forall₂_self healsTo_refl ms

theorem applyHealOp_forall₂ {ts ts' : TraumaState} {op : HealOp}
    (h : applyHealOp ts op = .ok ts') :
    List.Forall₂ HealsTo ts.memories ts'.memories := by
  cases op with
  | heal i a s =>
    simp only [applyHealOp, TraumaState.heal_memory_at] at h
    split at h
    · exact absurd h (by simp)
    · rename_i m hg
      split at h
      · exact absurd h (by simp)
      · rename_i m' hm
        simp only [Except.ok.injEq] at h
        subst h
        exact forall₂_set_of_getElem healsTo_refl hg (healsTo_single hm)
  | daily p d =>
    simp only [applyHealOp, TraumaState.apply_daily_healing] at h
    split at h
    · exact absurd h (by simp)
    · rename_i ms hms
      simp only [Except.ok.injEq] at h
      subst h
      have h2 := mapME_ok_forall₂ hms
      exact List.Forall₂.imp (fun _ _ hmm => healsTo_of_cond hmm) h2
  | activity act a tr =>
    simp only [applyHealOp, TraumaState.apply_activity_healing] at h
    split at h
    · exact absurd h (by simp)
    · split at h
      · exact absurd h (by simp)
      · rename_i ms hms
        simp only [Except.ok.injEq] at h
        subst h
        have h2 := mapME_ok_forall₂ hms
        exact List.Forall₂.imp (fun _ _ hmm => healsTo_of_cond hmm) h2
  | counter e v =>
    simp only [applyHealOp, TraumaState.apply_counter_experience_healing] at h
    split at h
    · exact absurd h (by simp)
    · split at h
      · exact absurd h (by simp)
      · rename_i ms hfold
        simp only [Except.ok.injEq] at h
        subst h
        exact counterFold_forall₂ hfold

theorem applyHealOps_forall₂ :
    ∀ {ops : List HealOp} {ts ts' : TraumaState},
      applyHealOps ts ops = .ok ts' →
      List.Forall₂ HealsTo ts.memories ts'.memories := by
  intro ops
  induction ops with
  | nil =>
    intro ts ts' h
    simp only [applyHealOps, Except.ok.injEq] at h
    subst h
    exact forall₂_self healsTo_refl _
  | cons op rest ih =>
    intro ts ts' h
    simp only [applyHealOps] at h
    split at h
    · exact absurd h (by simp)
    · rename_i ts₁ hop
      exact forall₂_healsTo_trans (applyHealOp_forall₂ hop) (ih h)

/-- Pointwise band preservation for whole-ledger heal chains: if every
memory starts at or above its scar threshold and within its original
impact, every memory stays there, non-increasingly, with a fixed original. -/
theorem healsTo_forall₂_band :
    ∀ {l l' : List TraumaMemory}, List.Forall₂ HealsTo l l' →
      (∀ m ∈ l, m.scar_threshold ≤ m.current_impact ∧
        m.current_impact ≤ m.original_impact) →
      List.Forall₂ (fun m m' =>
        m'.scar_threshold ≤ m'.current_impact ∧
        m'.current_impact ≤ m'.original_impact ∧
        m'.current_impact ≤ m.current_impact ∧
        m'.original_impact = m.original_impact) l l' := by
  intro l l' h hmem
  induction h with
  | nil => constructor
  | cons hh ht ih =>
    rename_i m m' t t'
    obtain ⟨hge, hle⟩ := hmem m (List.mem_cons_self m t)
    obtain ⟨b₁, b₂, b₃⟩ := healsTo_band hh hge
    refine List.Forall₂.cons ⟨b₁, ?_, b₂, b₃⟩
      (ih (fun x hx => hmem x (List.mem_cons_of_mem m hx)))
    rw [b₃]
    exact le_trans b₂ hle

/-- Concrete memory used to refute claim C1 as literally stated: it passes
`__post_init__` validation yet starts strictly below its scar threshold. -/
def c1CexMemory : TraumaMemory :=
  ⟨"betrayal", 1, 1/20, 3, "was hurt", [], [], "t0"⟩

/-- **C1, counterexample.**  The claim quantifies over every TraumaMemory,
but the constructor accepts `original_impact = 1.0`, `current_impact = 0.05`
(validation only demands `0 ≤ current ≤ original`), whose scar threshold is
`0.1 > 0.05`: `current_impact` is below the scar threshold at creation, and
a zero-amount `apply_healing` call then raises it from 0.05 back up to the
0.1 floor, so `current_impact` is not non-increasing either. -/
theorem claim_C1_counterexample :
    TraumaMemory.mk? "betrayal" 1 (1/20) 3 "was hurt" [] [] "t0" =
      .ok c1CexMemory ∧
    c1CexMemory.current_impact < c1CexMemory.scar_threshold ∧
    (c1CexMemory.apply_healing 0 "zero_heal").map TraumaMemory.current_impact =
      .ok (1/10) ∧
    c1CexMemory.current_impact < 1/10 := by
  refine ⟨?_, ?_, ?_, ?_⟩
  · norm_num [TraumaMemory.mk?, c1CexMemory]
  · norm_num [c1CexMemory, TraumaMemory.scar_threshold]
  · norm_num [c1CexMemory, TraumaMemory.apply_healing,
      TraumaMemory.scar_threshold, max_def, Except.map]
  · norm_num [c1CexMemory]

/-- **C1 (amended).**  For every TraumaMemory of the ledger that starts at
or above its scar threshold and at or below its original impact — as every
memory created by `add_trauma` does, starting at `current = original` — any
finite sequence of successful healing operations (direct `apply_healing`,
daily natural healing, activity healing, counter-experience healing) keeps
`current_impact` between the scar threshold and the original impact, never
increases it, and never changes `original_impact`. -/
theorem claim_C1_trauma_healing_invariant {ts ts' : TraumaState}
    {ops : List HealOp}
    (hmem : ∀ m ∈ ts.memories, m.scar_threshold ≤ m.current_impact ∧
      m.current_impact ≤ m.original_impact)
    (h : applyHealOps ts ops = .ok ts') :
    List.Forall₂ (fun m m' =>
      m'.scar_threshold ≤ m'.current_impact ∧
      m'.current_impact ≤ m'.original_impact ∧
      m'.current_impact ≤ m.current_impact ∧
      m'.original_impact = m.original_impact) ts.memories ts'.memories :=
  healsTo_forall₂_band (applyHealOps_forall₂ h) hmem

def c1WitnessState : TraumaState :=
  ⟨[⟨"betrayal", 1, 1, 0, "d", [], [], "t"⟩], [], none, 1/1000⟩

def c1WitnessState' : TraumaState :=
  ⟨[⟨"betrayal", 1, 1/2, 0, "d", [], ["direct"], "t"⟩], [], none, 1/1000⟩

/-- Witness for C1: a severe memory healed once by 0.5 lands at 0.5,
inside the `[0.3, 1.0]` band. -/
theorem claim_C1_witness :
    List.Forall₂ (fun m m' =>
      m'.scar_threshold ≤ m'.current_impact ∧
      m'.current_impact ≤ m'.original_impact ∧
      m'.current_impact ≤ m.current_impact ∧
      m'.original_impact = m.original_impact)
      c1WitnessState.memories c1WitnessState'.memories := by
  have happ : applyHealOps c1WitnessState [HealOp.heal 0 (1/2) "direct"] =
      .ok c1WitnessState' := by
    norm_num [applyHealOps, applyHealOp, TraumaState.heal_memory_at,
      c1WitnessState, c1WitnessState', TraumaMemory.apply_healing,
      TraumaMemory.scar_threshold, max_def]
  refine claim_C1_trauma_healing_invariant ?_ happ
  intro m hm
  simp only [c1WitnessState, List.mem_singleton] at hm
  subst hm
  norm_num [TraumaMemory.scar_threshold]

/-! ## Claim C2: the 0.8-impact scenario -/

/-- A sequence of direct `apply_healing` calls on one memory. -/
def healSeq : TraumaMemory → List (ℚ × String) → Except String TraumaMemory
  | m, [] => .ok m
  | m, (a, s) :: rest =>
    match m.apply_healing a s with
    | .error e => .error e
    | .ok m' => healSeq m' rest

theorem healSeq_healsTo :
    ∀ {l : List (ℚ × String)} {m m' : TraumaMemory},
      healSeq m l = .ok m' → HealsTo m m' := by
  intro l
  induction l with
  | nil =>
    intro m m' h
    simp only [healSeq, Except.ok.injEq] at h
    exact h ▸ healsTo_refl m
  | cons p rest ih =>
    intro m m' h
    simp only [healSeq] at h
    split at h
    · exact absurd h (by simp)
    · rename_i m₁ hm
      exact healsTo_trans (healsTo_single hm) (ih h)

/-- The memory of the C2 scenario: created with
`original_impact = current_impact = 0.8`. -/
def c2Memory : TraumaMemory :=
  ⟨"betrayal", 4/5, 4/5, 25, "Betrayed by close ally", [], [], "t"⟩

/-- **C2, counterexample.**  The claim puts the scar threshold of a 0.8
memory at 0.24 (30% of 0.8), but 0.8 falls in the moderate band
(`original_impact ≤ 1.0`), whose scar is 10% of the original: the code
yields 0.08, and a single `apply_healing(0.6)` call takes `current_impact`
to 0.2, strictly below 0.24. -/
theorem claim_C2_counterexample :
    c2Memory.scar_threshold = 2/25 ∧ (2/25 : ℚ) < 6/25 ∧
    (c2Memory.apply_healing (3/5) "heal").map TraumaMemory.current_impact =
      .ok (1/5) ∧ (1/5 : ℚ) < 6/25 := by
  refine ⟨?_, by norm_num, ?_, by norm_num⟩
  · norm_num [c2Memory, TraumaMemory.scar_threshold]
  · norm_num [c2Memory, TraumaMemory.apply_healing,
      TraumaMemory.scar_threshold, max_def, Except.map]

/-- **C2 (amended).**  A TraumaMemory created with `original_impact = 0.8`
has `scar_threshold = 0.08` (10% of 0.8, the moderate-trauma band);
repeated `apply_healing` calls asymptotically approach but never cross
0.08: every successful sequence of heals leaves `current_impact ≥ 0.08`,
and for every positive tolerance some sequence lands within it. -/
theorem claim_C2_scar_asymptote :
    c2Memory.scar_threshold = 2/25 ∧
    (∀ (ops : List (ℚ × String)) (m' : TraumaMemory),
      healSeq c2Memory ops = .ok m' → 2/25 ≤ m'.current_impact) ∧
    (∀ ε : ℚ, 0 < ε → ∃ (ops : List (ℚ × String)) (m' : TraumaMemory),
      healSeq c2Memory ops = .ok m' ∧ m'.current_impact < 2/25 + ε) := by
  have hscar : c2Memory.scar_threshold = 2/25 := by
    norm_num [c2Memory, TraumaMemory.scar_threshold]
  refine ⟨hscar, ?_, ?_⟩
  · intro ops m' h
    have hge : c2Memory.scar_threshold ≤ c2Memory.current_impact := by
      norm_num [c2Memory, TraumaMemory.scar_threshold]
    obtain ⟨b₁, -, b₃⟩ := healsTo_band (healSeq_healsTo h) hge
    have hsc : m'.scar_threshold = c2Memory.scar_threshold :=
      TraumaMemory.scar_threshold_congr b₃
    rw [hsc, hscar] at b₁
    exact b₁
  · intro ε hε
    refine ⟨[(1, "big_heal")],
      ⟨"betrayal", 4/5, 2/25, 25, "Betrayed by close ally", [], ["big_heal"], "t"⟩,
      ?_, by linarith⟩
    norm_num [healSeq, c2Memory, TraumaMemory.apply_healing,
      TraumaMemory.scar_threshold, max_def]

def c2WitnessMemory : TraumaMemory :=
  ⟨"betrayal", 4/5, 19/50, 25, "Betrayed by close ally", [], ["a", "b"], "t"⟩

/-- Witness for C2: a concrete two-step healing sequence lands at 0.38,
above the 0.08 floor, and tolerance 1/100 is achievable. -/
theorem claim_C2_witness :
    (2/25 : ℚ) ≤ c2WitnessMemory.current_impact ∧
    ∃ (ops : List (ℚ × String)) (m' : TraumaMemory),
      healSeq c2Memory ops = .ok m' ∧ m'.current_impact < 2/25 + 1/100 := by
  constructor
  · refine claim_C2_scar_asymptote.2.1 [(1/5, "a"), (11/50, "b")] c2WitnessMemory ?_
    norm_num [healSeq, c2Memory, c2WitnessMemory, TraumaMemory.apply_healing,
      TraumaMemory.scar_threshold, max_def]
  · exact claim_C2_scar_asymptote.2.2 (1/100) (by norm_num)

/-! ## Action taxonomy (src/src/utils/action_definitions.py) -/

inductive ActionType where
  | gather_food | gather_materials | craft_tools | build_shelter
  | help_random_npc | share_resources | start_conversation | form_alliance
  | vote_on_proposal | propose_new_rule | challenge_leadership | support_leader
  | rest | practice_skills | observe_others | do_nothing
  deriving Repr, DecidableEq

/-- `ActionType.value` strings. -/
def ActionType.value : ActionType → String
  | .gather_food => "gather_food"
  | .gather_materials => "gather_materials"
  | .craft_tools => "craft_tools"
  | .build_shelter => "build_shelter"
  | .help_random_npc => "help_random_npc"
  | .share_resources => "share_resources"
  | .start_conversation => "start_conversation"
  | .form_alliance => "form_alliance"
  | .vote_on_proposal => "vote_on_proposal"
  | .propose_new_rule => "propose_new_rule"
  | .challenge_leadership => "challenge_leadership"
  | .support_leader => "support_leader"
  | .rest => "rest"
  | .practice_skills => "practice_skills"
  | .observe_others => "observe_others"
  | .do_nothing => "do_nothing"

structure ActionMetadata where
  energy_cost : ℚ
  base_success_rate : ℚ
  category : String
  deriving Repr, DecidableEq

/-- `ACTION_METADATA` table; `get_action_metadata` falls back to the same
defaults for unknown actions, but the enum is closed so every action has
an entry. -/
def get_action_metadata : ActionType → ActionMetadata
  | .gather_food => ⟨3/10, 7/10, "resource"⟩
  | .gather_materials => ⟨2/5, 4/5, "resource"⟩
  | .craft_tools => ⟨1/5, 3/5, "resource"⟩
  | .build_shelter => ⟨1/2, 1/2, "resource"⟩
  | .help_random_npc => ⟨1/5, 4/5, "social"⟩
  | .share_resources => ⟨1/10, 9/10, "social"⟩
  | .start_conversation => ⟨1/10, 7/10, "social"⟩
  | .form_alliance => ⟨1/10, 2/5, "social"⟩
  | .vote_on_proposal => ⟨1/20, 9/10, "governance"⟩
  | .propose_new_rule => ⟨3/20, 3/10, "governance"⟩
  | .challenge_leadership => ⟨3/10, 1/5, "governance"⟩
  | .support_leader => ⟨1/10, 4/5, "governance"⟩
  | .rest => ⟨-(2/5), 19/20, "personal"⟩
  | .practice_skills => ⟨1/5, 9/10, "personal"⟩
  | .observe_others => ⟨1/20, 4/5, "personal"⟩
  | .do_nothing => ⟨0, 1, "personal"⟩

/-- `EXPERIENCE_MAPPINGS` (src/src/models/experience.py), per action the
ordered category→base_amount pairs; actions absent from the table map to
the empty list (`EXPERIENCE_MAPPINGS.get(action, ...)` with a default). -/
def EXPERIENCE_MAPPINGS : ActionType → List (String × ℚ)
  | .gather_food => [("survival", 1/50), ("resource_management", 3/200)]
  | .gather_materials => [("survival", 1/100), ("resource_management", 1/40)]
  | .craft_tools => [("crafting", 3/100), ("resource_management", 1/100)]
  | .build_shelter =>
    [("crafting", 1/40), ("survival", 3/200), ("resource_management", 1/100)]
  | .help_random_npc =>
    [("social_manipulation", 1/100), ("negotiation", 1/100), ("leadership", 1/200)]
  | .share_resources =>
    [("negotiation", 1/100), ("leadership", 1/200), ("resource_management", 1/200)]
  | .start_conversation => [("social_manipulation", 3/200), ("negotiation", 1/100)]
  | .form_alliance =>
    [("negotiation", 1/40), ("social_manipulation", 3/200), ("leadership", 3/200)]
  | .vote_on_proposal => [("leadership", 1/200)]
  | .propose_new_rule => [("leadership", 3/100), ("negotiation", 3/200)]
  | .challenge_leadership =>
    [("leadership", 1/25), ("combat", 1/100), ("social_manipulation", 1/100)]
  | .support_leader => [("leadership", 1/100), ("negotiation", 1/200)]
  | .practice_skills => [("leadership", 1/100), ("crafting", 1/100), ("survival", 1/100)]
  | .observe_others => [("social_manipulation", 1/50), ("leadership", 1/200)]
  | .rest => []
  | .do_nothing => []

/-! ## ExperienceLevels (src/src/models/experience.py) -/

/-- One record of the append-only `experience_history`. -/
structure ExpHistEntry where
  category : String
  amount_attempted : ℚ
  amount_gained : ℚ
  source : String
  success : Bool
  old_level : ℚ
  new_level : ℚ
  deriving Repr, DecidableEq

/-- The seven experience category names, in declaration order
(`_get_experience_dict` key order). -/
inductive ExpCategory where
  | leadership | negotiation | resource_management | crafting
  | social_manipulation | survival | combat
  deriving Repr, DecidableEq

/-- Category-name lookup: `some` exactly on the seven dict keys. -/
def nameToCategory : String → Option ExpCategory
  | "leadership" => some .leadership
  | "negotiation" => some .negotiation
  | "resource_management" => some .resource_management
  | "crafting" => some .crafting
  | "social_manipulation" => some .social_manipulation
  | "survival" => some .survival
  | "combat" => some .combat
  | _ => none

structure ExperienceLevels where
  leadership : ℚ := 0
  negotiation : ℚ := 0
  resource_management : ℚ := 0
  crafting : ℚ := 0
  social_manipulation : ℚ := 0
  survival : ℚ := 0
  combat : ℚ := 0
  experience_history : List ExpHistEntry := []
  deriving Repr, DecidableEq

namespace ExperienceLevels

/-- `__post_init__` validation: every level in [0, 1]. -/
def valid (e : ExperienceLevels) : Prop :=
  (0 ≤ e.leadership ∧ e.leadership ≤ 1) ∧
  (0 ≤ e.negotiation ∧ e.negotiation ≤ 1) ∧
  (0 ≤ e.resource_management ∧ e.resource_management ≤ 1) ∧
  (0 ≤ e.crafting ∧ e.crafting ≤ 1) ∧
  (0 ≤ e.social_manipulation ∧ e.social_manipulation ≤ 1) ∧
  (0 ≤ e.survival ∧ e.survival ≤ 1) ∧
  (0 ≤ e.combat ∧ e.combat ≤ 1)

instance : DecidablePred valid := fun e => by unfold valid; infer_instance

/-- `getattr` on a category. -/
def level (e : ExperienceLevels) : ExpCategory → ℚ
  | .leadership => e.leadership
  | .negotiation => e.negotiation
  | .resource_management => e.resource_management
  | .crafting => e.crafting
  | .social_manipulation => e.social_manipulation
  | .survival => e.survival
  | .combat => e.combat

/-- `setattr` on a category. -/
def setLevel (e : ExperienceLevels) : ExpCategory → ℚ → ExperienceLevels
  | .leadership, v => { e with leadership := v }
  | .negotiation, v => { e with negotiation := v }
  | .resource_management, v => { e with resource_management := v }
  | .crafting, v => { e with crafting := v }
  | .social_manipulation, v => { e with social_manipulation := v }
  | .survival, v => { e with survival := v }
  | .combat, v => { e with combat := v }

theorem level_setLevel (e : ExperienceLevels) (c : ExpCategory) (v : ℚ) :
    (e.setLevel c v).level c = v := by
  cases c <;> rfl

/-- The new level produced by one `gain_experience` call from level `old`
with attempted amount `amount`: diminishing-returns factor `1 − old·0.3`,
then capped at 1. -/
def gainStep (old amount : ℚ) : ℚ :=
  min 1 (old + amount * (1 - old * (3/10)))

/-- `gain_experience`: validates category then amount, applies the
diminishing-returns step, appends a history record, and reports whether
the realized delta is at least the 0.05 significance threshold. -/
def gain_experience (e : ExperienceLevels) (category : String) (amount : ℚ)
    (source : String) (success : Bool) :
    Except String (ExperienceLevels × Bool) :=
  match nameToCategory category with
  | none => .error "Unknown experience category"
  | some cat =>
    if amount < 0 then .error "Experience amount must be positive"
    else
      let old_level := e.level cat
      let new_level := gainStep old_level amount
      let e' := e.setLevel cat new_level
      let entry : ExpHistEntry :=
        ⟨category, amount, new_level - old_level, source, success, old_level, new_level⟩
      .ok ({ e' with experience_history := e.experience_history ++ [entry] },
           decide (1/20 ≤ new_level - old_level))

/-- The loop of `gain_experience_from_action` over the mapping entries
(the second, overriding definition in the source, which returns the
category → significant-flag dict). -/
def gainFromList (e : ExperienceLevels) (src : String) (success : Bool) :
    List (String × ℚ) → Except String (ExperienceLevels × List (String × Bool))
  | [] => .ok (e, [])
  | (c, base) :: rest =>
    let actual := base * (if success then 1 else 3/10)
    if 0 < actual then
      match e.gain_experience c actual src success with
      | .error err => .error err
      | .ok (e₁, significant) =>
        match gainFromList e₁ src success rest with
        | .error err => .error err
        | .ok (e₂, results) => .ok (e₂, (c, significant) :: results)
    else
      gainFromList e src success rest

/-- `gain_experience_from_action`. -/
def gain_experience_from_action (e : ExperienceLevels) (action : ActionType)
    (success : Bool) : Except String (ExperienceLevels × List (String × Bool)) :=
  gainFromList e ("action_" ++ action.value) success (EXPERIENCE_MAPPINGS action)

end ExperienceLevels

/-! ## Claim C3: diminishing returns -/

namespace ExperienceLevels

/-- The realized delta of one gain step is antitone in the starting level
(for a non-negative attempted amount). -/
theorem gainStep_delta_antitone {a x y : ℚ} (ha : 0 ≤ a) (hxy : x ≤ y) :
    gainStep y a - y ≤ gainStep x a - x := by
  unfold gainStep
  rw [← min_sub_sub_right, ← min_sub_sub_right]
  have h₁ : (1 : ℚ) - y ≤ 1 - x := by linarith
  have h₂ : y + a * (1 - y * (3/10)) - y ≤ x + a * (1 - x * (3/10)) - x := by
    nlinarith
  exact min_le_min h₁ h₂

/-- One gain step never lowers a level that is at most 1. -/
theorem le_gainStep {a x : ℚ} (ha : 0 ≤ a) (hx1 : x ≤ 1) : x ≤ gainStep x a := by
  unfold gainStep
  refine le_min hx1 ?_
  nlinarith

/-- Inversion of a successful `gain_experience` call. -/
theorem gain_experience_ok {e e' : ExperienceLevels} {category source : String}
    {amount : ℚ} {success b : Bool} {cat : ExpCategory}
    (hcat : nameToCategory category = some cat)
    (h : e.gain_experience category amount source success = .ok (e', b)) :
    0 ≤ amount ∧ e'.level cat = gainStep (e.level cat) amount := by
  unfold gain_experience at h
  rw [hcat] at h
  dsimp only at h
  by_cases hneg : amount < 0
  · rw [if_pos hneg] at h; exact absurd h (by simp)
  · rw [if_neg hneg] at h
    simp only [Except.ok.injEq, Prod.mk.injEq] at h
    obtain ⟨he, -⟩ := h
    subst he
    exact ⟨by linarith [not_lt.mp hneg], by cases cat <;> rfl⟩

/-- **C3.**  For every valid category and fixed non-negative amount,
two consecutive `gain_experience` calls with identical parameters realize
a second delta no larger than the first: per-call deltas are non-increasing
as the level rises. -/
theorem claim_C3_diminishing_returns {e e₁ e₂ : ExperienceLevels}
    {category src₁ src₂ : String} {amount : ℚ} {s₁ s₂ b₁ b₂ : Bool}
    {cat : ExpCategory}
    (hcat : nameToCategory category = some cat)
    (h1 : e.level cat ≤ 1)
    (hg₁ : e.gain_experience category amount src₁ s₁ = .ok (e₁, b₁))
    (hg₂ : e₁.gain_experience category amount src₂ s₂ = .ok (e₂, b₂)) :
    e₂.level cat - e₁.level cat ≤ e₁.level cat - e.level cat := by
  obtain ⟨ha, hl₁⟩ := gain_experience_ok hcat hg₁
  obtain ⟨-, hl₂⟩ := gain_experience_ok hcat hg₂
  rw [hl₂, hl₁]
  exact gainStep_delta_antitone ha (le_gainStep ha h1)

/-- Witness for C3 at the default tracker: two `gain_experience("survival",
0.1)` calls realize deltas 0.1 then 0.097. -/
theorem claim_C3_witness :
    ∃ (e₁ e₂ : ExperienceLevels) (b₁ b₂ : Bool),
      ExperienceLevels.gain_experience {} "survival" (1/10) "src" true =
        .ok (e₁, b₁) ∧
      e₁.gain_experience "survival" (1/10) "src" true = .ok (e₂, b₂) ∧
      e₂.level .survival - e₁.level .survival ≤
        e₁.level .survival - ({} : ExperienceLevels).level .survival := by
  have hg₁ : ExperienceLevels.gain_experience {} "survival" (1/10) "src" true =
      .ok ({ survival := 1/10,
             experience_history :=
               [⟨"survival", 1/10, 1/10, "src", true, 0, 1/10⟩] }, true) := by
    norm_num [gain_experience, nameToCategory, gainStep, level, setLevel, min_def]
  have hg₂ : ExperienceLevels.gain_experience
      { survival := 1/10,
        experience_history := [⟨"survival", 1/10, 1/10, "src", true, 0, 1/10⟩] }
      "survival" (1/10) "src" true =
      .ok ({ survival := 197/1000,
             experience_history :=
               [⟨"survival", 1/10, 1/10, "src", true, 0, 1/10⟩,
                ⟨"survival", 1/10, 97/1000, "src", true, 1/10, 197/1000⟩] },
           true) := by
    norm_num [gain_experience, nameToCategory, gainStep, level, setLevel, min_def]
  exact ⟨_, _, _, _, hg₁, hg₂, claim_C3_diminishing_returns
    (show nameToCategory "survival" = some ExpCategory.survival from rfl)
    (by norm_num [ExperienceLevels.level]) hg₁ hg₂⟩

end ExperienceLevels

/-! ## RelationshipDimensions (src/src/models/relationships.py) -/

/-- One record of the append-only `relationship_history`.  The wall-clock
timestamp the source stores with each record is not modelled (no claim
inspects it). -/
structure RelChange where
  dimension : String
  old_value : ℚ
  new_value : ℚ
  change : ℚ
  reason : String
  deriving Repr, DecidableEq

/-- The five bounded relationship dimensions plus the change history. -/
structure RelationshipDimensions where
  trust : ℚ := 1/2
  respect : ℚ := 1/2
  affection : ℚ := 1/2
  dependency : ℚ := 0
  fear : ℚ := 0
  relationship_history : List RelChange := []
  deriving Repr, DecidableEq

/-- The five dimension names, in declaration order. -/
inductive RelDim where
  | trust | respect | affection | dependency | fear
  deriving Repr, DecidableEq

/-- Dimension-name lookup: `some` exactly on the five dimension names.
The source checks `hasattr(self, dimension)`, which also admits attribute
names such as `relationship_history`; those then fail with a `TypeError`
in the arithmetic before any assignment, so rejection-without-mutation is
the behaviour for every name outside the five dimensions. -/
def nameToRelDim : String → Option RelDim
  | "trust" => some .trust
  | "respect" => some .respect
  | "affection" => some .affection
  | "dependency" => some .dependency
  | "fear" => some .fear
  | _ => none

namespace RelationshipDimensions

/-- `__post_init__` validation: every dimension in [0, 1]. -/
def valid (r : RelationshipDimensions) : Prop :=
  (0 ≤ r.trust ∧ r.trust ≤ 1) ∧ (0 ≤ r.respect ∧ r.respect ≤ 1) ∧
  (0 ≤ r.affection ∧ r.affection ≤ 1) ∧ (0 ≤ r.dependency ∧ r.dependency ≤ 1) ∧
  (0 ≤ r.fear ∧ r.fear ≤ 1)

instance : DecidablePred valid := fun r => by unfold valid; infer_instance

def dimValue (r : RelationshipDimensions) : RelDim → ℚ
  | .trust => r.trust
  | .respect => r.respect
  | .affection => r.affection
  | .dependency => r.dependency
  | .fear => r.fear

def setDim (r : RelationshipDimensions) : RelDim → ℚ → RelationshipDimensions
  | .trust, v => { r with trust := v }
  | .respect, v => { r with respect := v }
  | .affection, v => { r with affection := v }
  | .dependency, v => { r with dependency := v }
  | .fear, v => { r with fear := v }

/-- `get_overall_sentiment`: clamped to [-1, 1]. -/
def get_overall_sentiment (r : RelationshipDimensions) : ℚ :=
  let positive := (r.trust + r.respect + r.affection) / 3
  let negative := r.fear
  max (-1) (min 1 ((positive * 2 - 1) - negative))

/-- `get_closeness`. -/
def get_closeness (r : RelationshipDimensions) : ℚ :=
  let base_closeness := (r.affection + r.trust + r.dependency) / 3
  let fear_penalty := r.fear * (1/2)
  max 0 (base_closeness - fear_penalty)

/-- `get_influence_potential`. -/
def get_influence_potential (r : RelationshipDimensions) : ℚ :=
  max ((r.respect + r.trust) / 2) (r.fear * (4/5))

/-- `get_relationship_type`: the ordered decision sequence, first match
wins. -/
def get_relationship_type (r : RelationshipDimensions) : String :=
  let sentiment := r.get_overall_sentiment
  let closeness := r.get_closeness
  if 7/10 < r.fear then
    if sentiment < -(3/10) then "feared enemy" else "feared authority"
  else if 3/5 < sentiment ∧ 7/10 < closeness then
    if 4/5 < r.affection then "close friend" else "trusted ally"
  else if 3/10 < sentiment ∧ 1/2 < closeness then "friend"
  else if 0 < sentiment then "acquaintance"
  else if -(3/10) < sentiment then "neutral"
  else if -(3/5) < sentiment then "disliked"
  else "enemy"

/-- `update_dimension`: validates the name, optionally scales the change by
`1 + closeness`, clamps to [0, 1], assigns, and records the change. -/
def update_dimension (r : RelationshipDimensions) (dimension : String)
    (change : ℚ) (reason : String) (closeness_multiplier : Bool) :
    Except String RelationshipDimensions :=
  match nameToRelDim dimension with
  | none => .error "Unknown relationship dimension"
  | some dim =>
    let current_value := r.dimValue dim
    let adjusted_change :=
      if closeness_multiplier then change * (1 + r.get_closeness) else change
    let new_value := max 0 (min 1 (current_value + adjusted_change))
    let r' := r.setDim dim new_value
    .ok { r' with
          relationship_history := r.relationship_history ++
            [⟨dimension, current_value, new_value, adjusted_change, reason⟩] }

/-- The `relationship_events` table: per event the ordered
dimension → base-delta pairs (Python dict-literal insertion order). -/
def relationshipEvents : List (String × List (String × ℚ)) :=
  [("helped_in_crisis",
    [("trust", 3/20), ("respect", 1/10), ("affection", 1/10), ("dependency", 1/20)]),
   ("betrayed_trust",
    [("trust", -(2/5)), ("respect", -(1/5)), ("affection", -(3/10)), ("fear", 1/10)]),
   ("shared_resources",
    [("trust", 2/25), ("affection", 3/50), ("dependency", 3/100)]),
   ("competed_for_leadership",
    [("respect", 1/20), ("fear", 3/100), ("trust", -(1/20))]),
   ("saved_from_danger",
    [("trust", 1/4), ("respect", 1/5), ("affection", 1/5), ("dependency", 3/20)]),
   ("public_humiliation",
    [("respect", -(3/10)), ("affection", -(1/5)), ("fear", 1/10)]),
   ("kept_secret", [("trust", 1/5), ("affection", 1/10)]),
   ("broke_promise",
    [("trust", -(1/4)), ("respect", -(1/10)), ("affection", -(3/20))]),
   ("showed_vulnerability",
    [("affection", 1/10), ("trust", 1/20), ("fear", -(1/20))]),
   ("demonstrated_competence", [("respect", 3/20), ("trust", 1/20)])]

/-- The loop of `apply_relationship_event` over one event's delta bundle. -/
def applyChanges (r : RelationshipDimensions) (event_type : String)
    (impact_strength : ℚ) : List (String × ℚ) →
    Except String RelationshipDimensions
  | [] => .ok r
  | (dimension, base_change) :: rest =>
    match r.update_dimension dimension (base_change * impact_strength)
        event_type true with
    | .error e => .error e
    | .ok r' => applyChanges r' event_type impact_strength rest

/-- `apply_relationship_event`: rejects an unknown event name before any
update, then routes each scaled delta through `update_dimension`. -/
def apply_relationship_event (r : RelationshipDimensions) (event_type : String)
    (impact_strength : ℚ) : Except String RelationshipDimensions :=
  match relationshipEvents.lookup event_type with
  | none => .error "Unknown event type"
  | some changes => r.applyChanges event_type impact_strength changes

end RelationshipDimensions

/-! ## RelationshipMatrix (src/src/models/relationships.py) -/

/-- All relationships of one NPC, an insertion-ordered map from partner id
to dimensions. -/
structure RelationshipMatrix where
  relationships : List (String × RelationshipDimensions) := []
  deriving Repr, DecidableEq

namespace RelationshipMatrix

/-- `get_relationship`: returns the existing entry or inserts a fresh
neutral one, returning the (possibly extended) matrix alongside. -/
def get_relationship (mx : RelationshipMatrix) (target_npc_id : String) :
    RelationshipMatrix × RelationshipDimensions :=
  match mx.relationships.lookup target_npc_id with
  | some rel => (mx, rel)
  | none =>
    let fresh : RelationshipDimensions := {}
    ({ relationships := mx.relationships ++ [(target_npc_id, fresh)] }, fresh)

/-- Replace the entry for a partner id (used after mutating it). -/
def setRel (mx : RelationshipMatrix) (npc_id : String)
    (rel : RelationshipDimensions) : RelationshipMatrix :=
  { relationships :=
      mx.relationships.map (fun p => if p.1 = npc_id then (npc_id, rel) else p) }

/-- `update_relationship`: lazy-create then `update_dimension` (with the
closeness multiplier, the Python default). -/
def update_relationship (mx : RelationshipMatrix) (target_npc_id : String)
    (dimension : String) (change : ℚ) (reason : String) :
    Except String RelationshipMatrix :=
  let (mx₁, rel) := mx.get_relationship target_npc_id
  match rel.update_dimension dimension change reason true with
  | .error e => .error e
  | .ok rel' => .ok (mx₁.setRel target_npc_id rel')

/-- Matrix-level `apply_relationship_event`: note the source calls
`get_relationship` (which may insert a fresh neutral entry) before the
event name is validated, so the insertion survives a failed validation. -/
def apply_relationship_event (mx : RelationshipMatrix) (target_npc_id : String)
    (event_type : String) (impact_strength : ℚ) :
    Except String RelationshipMatrix :=
  let (mx₁, rel) := mx.get_relationship target_npc_id
  match rel.apply_relationship_event event_type impact_strength with
  | .error e => .error e
  | .ok rel' => .ok (mx₁.setRel target_npc_id rel')

/-- `calculate_social_isolation`: 1.0 for an empty graph, else
`1 − (avg_closeness + positive_sentiment_ratio)/2`. -/
def calculate_social_isolation (mx : RelationshipMatrix) : ℚ :=
  if mx.relationships = [] then 1
  else
    let rels := mx.relationships.map Prod.snd
    let total_closeness :=
      (rels.map RelationshipDimensions.get_closeness).sum
    let positive_relationships :=
      (rels.filter (fun r => 0 < r.get_overall_sentiment)).length
    let n : ℚ := mx.relationships.length
    let average_closeness := total_closeness / n
    let positive_ratio := (positive_relationships : ℚ) / n
    1 - (average_closeness + positive_ratio) / 2

/-- `calculate_social_influence`: 0.0 for an empty graph, else average
influence weighted by a relationship-count bonus, capped at 1. -/
def calculate_social_influence (mx : RelationshipMatrix) : ℚ :=
  if mx.relationships = [] then 0
  else
    let rels := mx.relationships.map Prod.snd
    let total_influence :=
      (rels.map RelationshipDimensions.get_influence_potential).sum
    let n : ℚ := mx.relationships.length
    let average_influence := total_influence / n
    let relationship_bonus := min 1 (n / 20)
    min 1 (average_influence * (1 + relationship_bonus))

end RelationshipMatrix

/-! ## Claims C5 and C7 -/

/-- **C5.**  A default-constructed RelationshipDimensions has
trust = respect = affection = 0.5, dependency = fear = 0.0 and type
"neutral"; applying `saved_from_danger` at default strength 1.0 (each delta
scaled by the closeness multiplier, recomputed per dimension) yields type
"friend", which is in the friend-or-warmer set. -/
theorem claim_C5_saved_from_danger :
    (RelationshipDimensions.mk (1/2) (1/2) (1/2) 0 0 [] : RelationshipDimensions) =
      {} ∧
    RelationshipDimensions.get_relationship_type {} = "neutral" ∧
    (RelationshipDimensions.apply_relationship_event {} "saved_from_danger" 1).map
      RelationshipDimensions.get_relationship_type = .ok "friend" ∧
    "friend" ∈ ["friend", "trusted ally", "close friend"] := by
  refine ⟨rfl, ?_, ?_, by simp⟩
  · norm_num [RelationshipDimensions.get_relationship_type,
      RelationshipDimensions.get_overall_sentiment,
      RelationshipDimensions.get_closeness, max_def, min_def]
  · have h₁ : RelationshipDimensions.update_dimension {} "trust" (1/4)
        "saved_from_danger" true =
        .ok ⟨5/6, 1/2, 1/2, 0, 0,
             [⟨"trust", 1/2, 5/6, 1/3, "saved_from_danger"⟩]⟩ := by
      norm_num [RelationshipDimensions.update_dimension, nameToRelDim,
        RelationshipDimensions.dimValue, RelationshipDimensions.setDim,
        RelationshipDimensions.get_closeness, max_def, min_def]
    have h₂ : RelationshipDimensions.update_dimension
        ⟨5/6, 1/2, 1/2, 0, 0, [⟨"trust", 1/2, 5/6, 1/3, "saved_from_danger"⟩]⟩
        "respect" (1/5) "saved_from_danger" true =
        .ok ⟨5/6, 71/90, 1/2, 0, 0,
             [⟨"trust", 1/2, 5/6, 1/3, "saved_from_danger"⟩,
              ⟨"respect", 1/2, 71/90, 13/45, "saved_from_danger"⟩]⟩ := by
      norm_num [RelationshipDimensions.update_dimension, nameToRelDim,
        RelationshipDimensions.dimValue, RelationshipDimensions.setDim,
        RelationshipDimensions.get_closeness, max_def, min_def]
    have h₃ : RelationshipDimensions.update_dimension
        ⟨5/6, 71/90, 1/2, 0, 0,
         [⟨"trust", 1/2, 5/6, 1/3, "saved_from_danger"⟩,
          ⟨"respect", 1/2, 71/90, 13/45, "saved_from_danger"⟩]⟩
        "affection" (1/5) "saved_from_danger" true =
        .ok ⟨5/6, 71/90, 71/90, 0, 0,
             [⟨"trust", 1/2, 5/6, 1/3, "saved_from_danger"⟩,
              ⟨"respect", 1/2, 71/90, 13/45, "saved_from_danger"⟩,
              ⟨"affection", 1/2, 71/90, 13/45, "saved_from_danger"⟩]⟩ := by
      norm_num [RelationshipDimensions.update_dimension, nameToRelDim,
        RelationshipDimensions.dimValue, RelationshipDimensions.setDim,
        RelationshipDimensions.get_closeness, max_def, min_def]
    have h₄ : RelationshipDimensions.update_dimension
        ⟨5/6, 71/90, 71/90, 0, 0,
         [⟨"trust", 1/2, 5/6, 1/3, "saved_from_danger"⟩,
          ⟨"respect", 1/2, 71/90, 13/45, "saved_from_danger"⟩,
          ⟨"affection", 1/2, 71/90, 13/45, "saved_from_danger"⟩]⟩
        "dependency" (3/20) "saved_from_danger" true =
        .ok ⟨5/6, 71/90, 71/90, 52/225, 0,
             [⟨"trust", 1/2, 5/6, 1/3, "saved_from_danger"⟩,
              ⟨"respect", 1/2, 71/90, 13/45, "saved_from_danger"⟩,
              ⟨"affection", 1/2, 71/90, 13/45, "saved_from_danger"⟩,
              ⟨"dependency", 0, 52/225, 52/225, "saved_from_danger"⟩]⟩ := by
      norm_num [RelationshipDimensions.update_dimension, nameToRelDim,
        RelationshipDimensions.dimValue, RelationshipDimensions.setDim,
        RelationshipDimensions.get_closeness, max_def, min_def]
    have happ : RelationshipDimensions.apply_relationship_event {}
        "saved_from_danger" 1 =
        .ok ⟨5/6, 71/90, 71/90, 52/225, 0,
             [⟨"trust", 1/2, 5/6, 1/3, "saved_from_danger"⟩,
              ⟨"respect", 1/2, 71/90, 13/45, "saved_from_danger"⟩,
              ⟨"affection", 1/2, 71/90, 13/45, "saved_from_danger"⟩,
              ⟨"dependency", 0, 52/225, 52/225, "saved_from_danger"⟩]⟩ := by
      simp at h₁ h₂ h₃ h₄
      simp [RelationshipDimensions.apply_relationship_event,
        RelationshipDimensions.relationshipEvents, List.lookup,
        RelationshipDimensions.applyChanges, h₁, h₂, h₃, h₄]
    rw [happ]
    simp only [Except.map]
    norm_num [RelationshipDimensions.get_relationship_type,
      RelationshipDimensions.get_overall_sentiment,
      RelationshipDimensions.get_closeness, max_def, min_def]

/-- **C7.**  A RelationshipMatrix with no partner entries reports social
isolation exactly 1.0 and social influence exactly 0.0. -/
theorem claim_C7_empty_graph (mx : RelationshipMatrix)
    (h : mx.relationships = []) :
    mx.calculate_social_isolation = 1 ∧ mx.calculate_social_influence = 0 := by
  constructor
  · unfold RelationshipMatrix.calculate_social_isolation
    rw [if_pos h]
  · unfold RelationshipMatrix.calculate_social_influence
    rw [if_pos h]

/-- Witness for C7 at the empty matrix. -/
theorem claim_C7_witness :
    RelationshipMatrix.calculate_social_isolation {} = 1 ∧
    RelationshipMatrix.calculate_social_influence {} = 0 :=
  claim_C7_empty_graph {} rfl

/-! ## NPCState (src/src/models/npc.py) -/

/-- Complete NPC aggregate. -/
structure NPCState where
  npc_id : String
  name : String := ""
  age : ℤ := 25
  health : ℚ := 4/5
  hunger_level : ℚ := 1/2
  energy_level : ℚ := 7/10
  personality : PersonalityTraits := {}
  experience : ExperienceLevels := {}
  trauma : TraumaState := {}
  relationships : RelationshipMatrix := {}
  last_action : Option String := none
  last_action_success : Option Bool := none
  days_alive : ℤ := 0
  creation_timestamp : String := ""
  deriving Repr, DecidableEq

/-- The optional `outcome_data` dict of `perform_action`. -/
structure TraumaEventData where
  ttype : Option String := none
  impact : Option ℚ := none
  description : Option String := none
  related_npcs : Option (List String) := none
  deriving Repr, DecidableEq

structure OutcomeData where
  food_gained : Option ℚ := none
  target_npc : Option String := none
  traumatic_event : Option TraumaEventData := none
  deriving Repr, DecidableEq

namespace NPCState

/-- `__post_init__` validation: age non-negative, vitals in [0, 1]
(plus the name default, handled at construction sites). -/
def validVitals (npc : NPCState) : Prop :=
  0 ≤ npc.age ∧
  (0 ≤ npc.health ∧ npc.health ≤ 1) ∧
  (0 ≤ npc.hunger_level ∧ npc.hunger_level ≤ 1) ∧
  (0 ≤ npc.energy_level ∧ npc.energy_level ≤ 1)

instance : DecidablePred validVitals := fun npc => by unfold validVitals; infer_instance

/-- `update_physical_state`: clamp all three vitals into [0, 1]. -/
def update_physical_state (npc : NPCState)
    (health_change hunger_change energy_change : ℚ) : NPCState :=
  { npc with
    health := max 0 (min 1 (npc.health + health_change)),
    hunger_level := max 0 (min 1 (npc.hunger_level + hunger_change)),
    energy_level := max 0 (min 1 (npc.energy_level + energy_change)) }

/-- `_process_traumatic_event`: defaults for the missing dict keys, then
`add_trauma` at the NPC's age. -/
def process_traumatic_event (npc : NPCState) (trauma_data : TraumaEventData)
    (now : String) : Except String NPCState :=
  let trauma_type := trauma_data.ttype.getD "generic"
  let impact := trauma_data.impact.getD (1/2)
  let description := trauma_data.description.getD ("Experienced " ++ trauma_type)
  let related := trauma_data.related_npcs.getD []
  match npc.trauma.add_trauma trauma_type impact npc.age description related now with
  | .error e => .error e
  | .ok (trauma', _) => .ok { npc with trauma := trauma' }

/-- The `interaction_effects` table of `interact_with_npc`: per interaction
type, per outcome, the ordered dimension deltas. -/
def interactionEffects : List (String × List (String × List (String × ℚ))) :=
  [("casual_conversation",
    [("success", [("affection", 1/20), ("trust", 1/50)]),
     ("failure", [("affection", -(1/50))])]),
   ("help_request",
    [("success", [("trust", 1/10), ("dependency", 1/20), ("affection", 2/25)]),
     ("failure", [("trust", -(1/20)), ("respect", -(3/100))])]),
   ("resource_sharing",
    [("success", [("trust", 2/25), ("affection", 3/50), ("dependency", 3/100)]),
     ("failure", [("trust", -(1/10)), ("affection", -(1/20))])]),
   ("conflict",
    [("success", [("fear", 1/10), ("respect", 1/20), ("affection", -(1/10))]),
     ("failure", [("fear", -(1/20)), ("respect", -(1/10)), ("trust", -(1/20))])]),
   ("betrayal",
    [("success",
      [("trust", -(2/5)), ("affection", -(3/10)), ("fear", 1/5), ("respect", -(1/5))])])]

/-- The relationship-change payload returned by `interact_with_npc`, either
the error dict or the success dict. -/
inductive InteractPayload where
  | errorPayload (msg : String)
  | result (interaction_type : String) (outcome : String)
      (relationship_changes : List (String × ℚ))
      (new_relationship_type : String)
  deriving Repr, DecidableEq

/-- The loop applying one interaction's dimension deltas through
`update_relationship`. -/
def applyInteractionEffects (mx : RelationshipMatrix) (target : String)
    (reason : String) : List (String × ℚ) → Except String RelationshipMatrix
  | [] => .ok mx
  | (dimension, change) :: rest =>
    match mx.update_relationship target dimension change reason with
    | .error e => .error e
    | .ok mx' => applyInteractionEffects mx' target reason rest

/-- `interact_with_npc`: unknown interaction types return an error payload
with the state untouched; otherwise apply the outcome's deltas, create a
betrayal trauma on a successful betrayal, and report the (lazily created)
relationship's type. -/
def interact_with_npc (npc : NPCState) (target_npc_id : String)
    (interaction_type : String) (outcome : String) (now : String) :
    Except String (NPCState × InteractPayload) :=
  match interactionEffects.lookup interaction_type with
  | none =>
    .ok (npc, .errorPayload ("Unknown interaction type: " ++ interaction_type))
  | some outcomes =>
    let effects := (outcomes.lookup outcome).getD []
    match applyInteractionEffects npc.relationships target_npc_id
        (interaction_type ++ "_" ++ outcome) effects with
    | .error e => .error e
    | .ok mx₁ =>
      let npc₁ := { npc with relationships := mx₁ }
      let afterTrauma : Except String NPCState :=
        if interaction_type = "betrayal" ∧ outcome = "success" then
          npc₁.process_traumatic_event
            ⟨some "betrayal", some (3/5),
             some ("Betrayed by " ++ target_npc_id), some [target_npc_id]⟩ now
        else .ok npc₁
      match afterTrauma with
      | .error e => .error e
      | .ok npc₂ =>
        let (mx₂, rel) := npc₂.relationships.get_relationship target_npc_id
        .ok ({ npc₂ with relationships := mx₂ },
             .result interaction_type outcome effects rel.get_relationship_type)

/-- `_apply_action_physical_effects`. -/
def apply_action_physical_effects (npc : NPCState) (action : ActionType)
    (success : Bool) (outcome_data : OutcomeData) : NPCState :=
  let energy_cost := (get_action_metadata action).energy_cost
  let npc₁ := npc.update_physical_state 0 0 (-energy_cost)
  if action = .gather_food ∧ success then
    npc₁.update_physical_state 0 (-(outcome_data.food_gained.getD (1/10))) 0
  else if action = .rest then
    let energy_restoration : ℚ := if success then 2/5 else 1/5
    let health_restoration : ℚ := if npc₁.health < 4/5 then 1/10 else 0
    npc₁.update_physical_state health_restoration 0 energy_restoration
  else if (action = .build_shelter ∨ action = .craft_tools) ∧ success then
    npc₁.update_physical_state (1/50) 0 0
  else npc₁

/-- `_apply_action_relationship_effects`: the fixed action → relationship
event routing (failure outcomes map to event names no branch handles, so
they change nothing, exactly as in the source). -/
def apply_action_relationship_effects (npc : NPCState) (action : ActionType)
    (success : Bool) (outcome_data : OutcomeData) : Except String NPCState :=
  match outcome_data.target_npc with
  | none => .ok npc
  | some target =>
    let done := fun (mx : RelationshipMatrix) => .ok { npc with relationships := mx }
    if action = .help_random_npc ∧ success then
      match npc.relationships.apply_relationship_event target "helped_in_crisis" 1 with
      | .error e => .error e
      | .ok mx => done mx
    else if action = .share_resources ∧ success then
      match npc.relationships.apply_relationship_event target "shared_resources" 1 with
      | .error e => .error e
      | .ok mx => done mx
    else if action = .form_alliance ∧ success then
      match npc.relationships.update_relationship target "trust" (1/10)
          "formed_alliance" with
      | .error e => .error e
      | .ok mx =>
        match mx.update_relationship target "respect" (1/20) "formed_alliance" with
        | .error e => .error e
        | .ok mx' => done mx'
    else if action = .start_conversation ∧ success then
      match npc.relationships.update_relationship target "affection" (1/20)
          "conversation" with
      | .error e => .error e
      | .ok mx => done mx
    else .ok npc

/-- `perform_action`: record the action, gain experience, apply physical
effects, then relationship effects and traumatic events when the outcome
names them; returns the per-category significance map. -/
def perform_action (npc : NPCState) (action : ActionType) (success : Bool)
    (outcome_data : OutcomeData) (now : String) :
    Except String (NPCState × List (String × Bool)) :=
  let npc₀ := { npc with
                last_action := some action.value,
                last_action_success := some success }
  match npc₀.experience.gain_experience_from_action action success with
  | .error e => .error e
  | .ok (exp', experience_results) =>
    let npc₁ := { npc₀ with experience := exp' }
    let npc₂ := npc₁.apply_action_physical_effects action success outcome_data
    match (if outcome_data.target_npc.isSome then
            npc₂.apply_action_relationship_effects action success outcome_data
          else .ok npc₂) with
    | .error e => .error e
    | .ok npc₃ =>
      match (match outcome_data.traumatic_event with
             | some td => npc₃.process_traumatic_event td now
             | none => .ok npc₃) with
      | .error e => .error e
      | .ok npc₄ => .ok (npc₄, experience_results)

end NPCState

/-! ## Claim C9: REST physical effects -/

theorem energy_clamp {e : ℚ} (h0 : 0 ≤ e) (_h1 : e ≤ 1) :
    max 0 (min 1 (max 0 (min 1 (e + 2/5)) + 2/5)) = min 1 (e + 4/5) := by
  simp only [min_def, max_def]
  split_ifs <;> linarith

theorem health_clamp {h : ℚ} (h0 : 0 ≤ h) (h1 : h ≤ 1) :
    max 0 (min 1 (max 0 (min 1 (h + 0)) +
      (if max 0 (min 1 (h + 0)) < 4/5 then (1:ℚ)/10 else 0))) =
    (if h < 4/5 then min 1 (h + 1/10) else h) := by
  simp only [min_def, max_def]
  split_ifs <;> linarith

/-- **C9.**  `perform_action(REST, success=True, {})` on vitals in [0, 1]
restores energy to `min(1, e + 0.8)` — the metadata energy cost −0.4 is
applied as +0.4 and the REST branch adds another +0.4 — and health to
`min(1, h + 0.1)` when `h < 0.8`, unchanged otherwise; REST grants no
experience, so the significance map is empty. -/
theorem claim_C9_rest_effects (npc : NPCState) (now : String)
    (he0 : 0 ≤ npc.energy_level) (he1 : npc.energy_level ≤ 1)
    (hh0 : 0 ≤ npc.health) (hh1 : npc.health ≤ 1) :
    (npc.perform_action .rest true {} now).map
      (fun r => (r.1.energy_level, r.1.health, r.2)) =
    .ok (min 1 (npc.energy_level + 4/5),
         (if npc.health < 4/5 then min 1 (npc.health + 1/10) else npc.health),
         []) := by
  have hpa : npc.perform_action .rest true ({} : OutcomeData) now =
      .ok (NPCState.apply_action_physical_effects
        { npc with last_action := some "rest", last_action_success := some true }
        .rest true {}, []) := rfl
  rw [hpa]
  simp only [Except.map]
  have hrest : ∀ s : NPCState,
      s.apply_action_physical_effects .rest true {} =
      (s.update_physical_state 0 0 (2/5)).update_physical_state
        (if (s.update_physical_state 0 0 (2/5)).health < 4/5 then 1/10 else 0)
        0 (2/5) := by
    intro s
    simp [NPCState.apply_action_physical_effects, get_action_metadata]
  rw [hrest]
  simp only [NPCState.update_physical_state, Except.ok.injEq, Prod.mk.injEq]
  exact ⟨energy_clamp he0 he1, health_clamp hh0 hh1, trivial⟩

/-- Witness for C9 at a concrete NPC with energy 0.7 and health 0.6. -/
theorem claim_C9_witness :
    ((NPCState.mk "w" "NPC_w" 25 (3/5) (1/2) (7/10) {} {} {} {} none none 0
        "t0").perform_action .rest true {} "now").map
      (fun r => (r.1.energy_level, r.1.health, r.2)) =
    .ok (min 1 ((7:ℚ)/10 + 4/5),
         (if (3:ℚ)/5 < 4/5 then min 1 ((3:ℚ)/5 + 1/10) else 3/5), []) :=
  claim_C9_rest_effects
    (NPCState.mk "w" "NPC_w" 25 (3/5) (1/2) (7/10) {} {} {} {} none none 0 "t0")
    "now" (by norm_num) (by norm_num) (by norm_num) (by norm_num)

/-! ## Claim C4: validation at the call boundary -/

def expCategoryNames : List String :=
  ["leadership", "negotiation", "resource_management", "crafting",
   "social_manipulation", "survival", "combat"]

def relDimNames : List String :=
  ["trust", "respect", "affection", "dependency", "fear"]

def relationshipEventNames : List String :=
  RelationshipDimensions.relationshipEvents.map Prod.fst

def interactionTypeNames : List String :=
  NPCState.interactionEffects.map Prod.fst

theorem lookup_eq_none {β : Type} {k : String} :
    ∀ {l : List (String × β)}, k ∉ l.map Prod.fst → l.lookup k = none := by
  intro l
  induction l with
  | nil => intro _; rfl
  | cons p t ih =>
    intro h
    simp only [List.map_cons, List.mem_cons, not_or] at h
    obtain ⟨h1, h2⟩ := h
    simp only [List.lookup]
    rw [show (k == p.1) = false from beq_eq_false_iff_ne.mpr h1]
    exact ih h2

theorem nameToCategory_eq_none {c : String} (h : c ∉ expCategoryNames) :
    nameToCategory c = none := by
  unfold nameToCategory
  split <;> first | rfl | simp_all [expCategoryNames]

theorem nameToRelDim_eq_none {d : String} (h : d ∉ relDimNames) :
    nameToRelDim d = none := by
  unfold nameToRelDim
  split <;> first | rfl | simp_all [relDimNames]

theorem get_trait_eq_none {t : String} (p : PersonalityTraits)
    (h : t ∉ PersonalityTraits.traitNames) : p.get_trait t = none := by
  unfold PersonalityTraits.get_trait
  split <;> first | rfl | simp_all [PersonalityTraits.traitNames]

/-- **C4.**  Every named operation validates its inputs at the call
boundary: unknown category/trait/dimension/event/interaction names,
out-of-range trait values and negative amounts are rejected with no
mutation (an `Except.error` result carries no state; `interact_with_npc`
instead returns the error payload alongside the untouched NPC), and in
particular no dimension of a multi-dimension event bundle is applied on an
invalid event name. -/
theorem claim_C4_validation_rejects_before_mutation :
    (∀ (e : ExperienceLevels) (category source : String) (amount : ℚ)
        (success : Bool), category ∉ expCategoryNames →
      e.gain_experience category amount source success =
        .error "Unknown experience category") ∧
    (∀ (e : ExperienceLevels) (category source : String) (amount : ℚ)
        (success : Bool), category ∈ expCategoryNames → amount < 0 →
      e.gain_experience category amount source success =
        .error "Experience amount must be positive") ∧
    (∀ (p : PersonalityTraits) (t : String) (v : ℚ),
      t ∉ PersonalityTraits.traitNames →
      p.set_trait t v = .error "Unknown trait") ∧
    (∀ (p : PersonalityTraits) (t : String) (v : ℚ),
      t ∈ PersonalityTraits.traitNames → v < 0 ∨ 1 < v →
      p.set_trait t v = .error "Trait value must be between 0.0 and 1.0") ∧
    (∀ (r : RelationshipDimensions) (d reason : String) (change : ℚ)
        (cm : Bool), d ∉ relDimNames →
      r.update_dimension d change reason cm =
        .error "Unknown relationship dimension") ∧
    (∀ (r : RelationshipDimensions) (ev : String) (strength : ℚ),
      ev ∉ relationshipEventNames →
      r.apply_relationship_event ev strength = .error "Unknown event type") ∧
    (∀ (ts : TraumaState) (et desc now : String) (impact : ℚ) (age : ℤ)
        (rel : List String), impact < 0 →
      ts.add_trauma et impact age desc rel now =
        .error "Trauma impact must be non-negative") ∧
    (∀ (ts : TraumaState) (et desc now : String) (impact : ℚ) (age : ℤ)
        (rel : List String), 0 ≤ impact → age < 0 →
      ts.add_trauma et impact age desc rel now =
        .error "Age must be non-negative") ∧
    (∀ (npc : NPCState) (target itype outcome now : String),
      itype ∉ interactionTypeNames →
      npc.interact_with_npc target itype outcome now =
        .ok (npc, .errorPayload ("Unknown interaction type: " ++ itype))) := by
  refine ⟨?_, ?_, ?_, ?_, ?_, ?_, ?_, ?_, ?_⟩
  · intro e category source amount success hc
    unfold ExperienceLevels.gain_experience
    rw [nameToCategory_eq_none hc]
  · intro e category source amount success hc ha
    fin_cases hc <;>
      simp [ExperienceLevels.gain_experience, nameToCategory, ha]
  · intro p t v ht
    unfold PersonalityTraits.set_trait
    rw [get_trait_eq_none p ht]
  · intro p t v ht hv
    fin_cases ht <;>
      simp [PersonalityTraits.set_trait, PersonalityTraits.get_trait, hv]
  · intro r d reason change cm hd
    unfold RelationshipDimensions.update_dimension
    rw [nameToRelDim_eq_none hd]
  · intro r ev strength hev
    unfold RelationshipDimensions.apply_relationship_event
    rw [lookup_eq_none hev]
  · intro ts et desc now impact age rel himp
    unfold TraumaState.add_trauma
    rw [if_pos himp]
  · intro ts et desc now impact age rel himp hage
    unfold TraumaState.add_trauma
    rw [if_neg (not_lt.mpr himp), if_pos hage]
  · intro npc target itype outcome now hit
    unfold NPCState.interact_with_npc
    rw [lookup_eq_none hit]

/-- Witness for C4: every validation branch fires at a concrete invalid
input. -/
theorem claim_C4_witness :
    (ExperienceLevels.gain_experience {} "cooking" (1/10) "s" true =
      .error "Unknown experience category") ∧
    (ExperienceLevels.gain_experience {} "survival" (-1) "s" true =
      .error "Experience amount must be positive") ∧
    (PersonalityTraits.set_trait {} "charisma" (1/2) = .error "Unknown trait") ∧
    (PersonalityTraits.set_trait {} "greed" 2 =
      .error "Trait value must be between 0.0 and 1.0") ∧
    (RelationshipDimensions.update_dimension {} "admiration" (1/10) "r" true =
      .error "Unknown relationship dimension") ∧
    (RelationshipDimensions.apply_relationship_event {} "won_lottery" 1 =
      .error "Unknown event type") ∧
    (TraumaState.add_trauma {} "betrayal" (-1) 20 "d" [] "t" =
      .error "Trauma impact must be non-negative") ∧
    (TraumaState.add_trauma {} "betrayal" (1/2) (-3) "d" [] "t" =
      .error "Age must be non-negative") ∧
    (NPCState.interact_with_npc
      (NPCState.mk "w" "NPC_w" 25 (4/5) (1/2) (7/10) {} {} {} {} none none 0 "t0")
      "p" "gossip" "success" "now" =
      .ok (NPCState.mk "w" "NPC_w" 25 (4/5) (1/2) (7/10) {} {} {} {} none none 0 "t0",
           .errorPayload ("Unknown interaction type: " ++ "gossip"))) :=
  ⟨claim_C4_validation_rejects_before_mutation.1 {} "cooking" "s" (1/10) true
      (by decide),
   claim_C4_validation_rejects_before_mutation.2.1 {} "survival" "s" (-1) true
      (by decide) (by norm_num),
   claim_C4_validation_rejects_before_mutation.2.2.1 {} "charisma" (1/2)
      (by decide),
   claim_C4_validation_rejects_before_mutation.2.2.2.1 {} "greed" 2 (by decide)
      (Or.inr (by norm_num)),
   claim_C4_validation_rejects_before_mutation.2.2.2.2.1 {} "admiration" "r"
      (1/10) true (by decide),
   claim_C4_validation_rejects_before_mutation.2.2.2.2.2.1 {} "won_lottery" 1
      (by decide),
   claim_C4_validation_rejects_before_mutation.2.2.2.2.2.2.1 {} "betrayal" "d"
      "t" (-1) 20 [] (by norm_num),
   claim_C4_validation_rejects_before_mutation.2.2.2.2.2.2.2.1 {} "betrayal"
      "d" "t" (1/2) (-3) [] (by norm_num) (by norm_num),
   claim_C4_validation_rejects_before_mutation.2.2.2.2.2.2.2.2 _ "p" "gossip"
      "success" "now" (by decide)⟩

/-! ## Claim C10: unrecognized healing activities -/

/-- The seven recognized healing-activity names. -/
def healingActivityNames : List String :=
  TraumaState.activityEffectiveness.map Prod.fst

theorem activityEffect_unknown {activity : String}
    (h : activity ∉ healingActivityNames) (traits : Option PersonalityTraits)
    (m : TraumaMemory) :
    TraumaState.activityEffectForMemory activity [] (1/2) traits m = 1/4 := by
  have h1 : activity ≠ "socializing" := by
    intro he; subst he; exact h (by decide)
  have h2 : activity ≠ "meditation" := by
    intro he; subst he; exact h (by decide)
  have h3 : activity ≠ "helping_others" := by
    intro he; subst he; exact h (by decide)
  cases traits with
  | none =>
    simp [TraumaState.activityEffectForMemory]
    norm_num
  | some p =>
    simp [TraumaState.activityEffectForMemory, h1, h2, h3]
    norm_num

/-- If the loop body succeeds on every element (with a relating property),
the whole `mapME` loop succeeds pointwise. -/
theorem mapME_ok_of_forall {α β : Type} {f : α → Except String β}
    {R : α → β → Prop} :
    ∀ {l : List α}, (∀ a ∈ l, ∃ b, f a = .ok b ∧ R a b) →
      ∃ l', mapME f l = .ok l' ∧ List.Forall₂ R l l' := by
  intro l
  induction l with
  | nil => intro _; exact ⟨[], rfl, List.Forall₂.nil⟩
  | cons a t ih =>
    intro h
    obtain ⟨b, hb, hR⟩ := h a (List.mem_cons_self a t)
    obtain ⟨t', ht', hRt⟩ := ih (fun x hx => h x (List.mem_cons_of_mem a hx))
    refine ⟨b :: t', ?_, List.Forall₂.cons hR hRt⟩
    simp only [mapME]
    rw [hb, ht']

/-- `apply_healing` always succeeds on a non-negative amount. -/
theorem apply_healing_ok_of_nonneg (m : TraumaMemory) {a : ℚ} (ha : 0 ≤ a)
    (s : String) : ∃ m', m.apply_healing a s = .ok m' ∧
      m'.current_impact = max m.scar_threshold (m.current_impact - a) := by
  unfold TraumaMemory.apply_healing
  rw [if_neg (not_lt.mpr ha)]
  exact ⟨_, rfl, rfl⟩

/-- **C10.**  For an activity outside the seven recognized healing
activities and a non-negative amount, `apply_activity_healing` does not
fail: it records the activity as `last_healing_activity` and heals every
not-fully-healed memory by `amount × 0.25` (general effectiveness 0.5
times the non-match multiplier 0.5), still floored at each memory's scar
threshold; fully-healed memories are untouched. -/
theorem claim_C10_unknown_activity {ts : TraumaState} {activity : String}
    {amount : ℚ} (hact : activity ∉ healingActivityNames) (ha : 0 ≤ amount)
    (traits : Option PersonalityTraits) :
    ∃ ts', ts.apply_activity_healing activity amount traits = .ok ts' ∧
      ts'.last_healing_activity = some activity ∧
      List.Forall₂ (fun m m' =>
        (m.is_fully_healed = true → m' = m) ∧
        (m.is_fully_healed = false → m'.current_impact =
          max m.scar_threshold (m.current_impact - amount * (1/4))))
        ts.memories ts'.memories := by
  have hcfg : (TraumaState.activityEffectiveness.lookup activity).getD
      ([], 1/2) = ([], 1/2) := by
    rw [lookup_eq_none hact]
    rfl
  have hbody : ∀ m ∈ ts.memories, ∃ m',
      (if m.is_fully_healed then Except.ok m
       else m.apply_healing
        (amount * TraumaState.activityEffectForMemory activity
          (((TraumaState.activityEffectiveness.lookup activity).getD ([], 1/2)).1)
          (((TraumaState.activityEffectiveness.lookup activity).getD ([], 1/2)).2)
          traits m)
        ("activity_" ++ activity)) = .ok m' ∧
      ((m.is_fully_healed = true → m' = m) ∧
       (m.is_fully_healed = false → m'.current_impact =
        max m.scar_threshold (m.current_impact - amount * (1/4)))) := by
    intro m _
    by_cases hf : m.is_fully_healed
    · exact ⟨m, by rw [if_pos hf], fun _ => rfl, fun hcontra => by
        rw [hf] at hcontra; exact absurd hcontra (by simp)⟩
    · rw [hcfg]
      obtain ⟨m', hm', hcur⟩ := apply_healing_ok_of_nonneg m
        (a := amount * (1/4)) (by positivity) ("activity_" ++ activity)
      refine ⟨m', ?_, fun hcontra => by
          rw [hcontra] at hf; exact absurd rfl hf, fun _ => hcur⟩
      rw [if_neg hf, activityEffect_unknown hact traits m]
      exact hm'
  obtain ⟨ms', hms', hR⟩ := mapME_ok_of_forall hbody
  refine ⟨{ ts with memories := ms', last_healing_activity := some activity },
    ?_, rfl, hR⟩
  unfold TraumaState.apply_activity_healing
  rw [if_neg (not_lt.mpr ha)]
  dsimp only
  rw [hms']

def c10State : TraumaState :=
  ⟨[⟨"betrayal", 1, 3/10, 0, "d", [], [], "t"⟩,
    ⟨"violence", 4/5, 4/5, 0, "d2", [], [], "t"⟩], [], none, 1/1000⟩

/-- Witness for C10: an unrecognized activity on a two-memory ledger. -/
theorem claim_C10_witness :
    ∃ ts', c10State.apply_activity_healing "gardening" (2/5) none = .ok ts' ∧
      ts'.last_healing_activity = some "gardening" ∧
      List.Forall₂ (fun m m' =>
        (m.is_fully_healed = true → m' = m) ∧
        (m.is_fully_healed = false → m'.current_impact =
          max m.scar_threshold (m.current_impact - (2/5) * (1/4))))
        c10State.memories ts'.memories :=
  claim_C10_unknown_activity (by decide) (by norm_num) none

/-! ## Serialization (to_dict / from_dict of every component)

A Python dict record is modelled as a structure of `Option` fields: `none`
is a missing key.  `from_dict` mirrors the source: `data['k']` on a
missing key is a KeyError (an `Except.error`), `data.get('k', d)` is
`Option.getD`, and the class constructors re-run `__post_init__`
validation.  `datetime.now().isoformat()` defaults are threaded in as the
explicit `now` argument. -/

structure PersonalityDict where
  greed : Option ℚ := none
  sociability : Option ℚ := none
  laziness : Option ℚ := none
  ambition : Option ℚ := none
  forgiveness : Option ℚ := none
  courage : Option ℚ := none
  analytical : Option ℚ := none
  impulsiveness : Option ℚ := none
  deriving Repr, DecidableEq

namespace PersonalityTraits

def to_dict (p : PersonalityTraits) : PersonalityDict :=
  ⟨some p.greed, some p.sociability, some p.laziness, some p.ambition,
   some p.forgiveness, some p.courage, some p.analytical, some p.impulsiveness⟩

/-- `cls(**data)`: missing keys fall back to the dataclass defaults (0.5),
then `__post_init__` validates. -/
def from_dict (d : PersonalityDict) : Except String PersonalityTraits :=
  let p : PersonalityTraits :=
    ⟨d.greed.getD (1/2), d.sociability.getD (1/2), d.laziness.getD (1/2),
     d.ambition.getD (1/2), d.forgiveness.getD (1/2), d.courage.getD (1/2),
     d.analytical.getD (1/2), d.impulsiveness.getD (1/2)⟩
  if p.valid then .ok p else .error "trait must be between 0.0 and 1.0"

end PersonalityTraits

structure ExpLevelsSubDict where
  leadership : Option ℚ := none
  negotiation : Option ℚ := none
  resource_management : Option ℚ := none
  crafting : Option ℚ := none
  social_manipulation : Option ℚ := none
  survival : Option ℚ := none
  combat : Option ℚ := none
  deriving Repr, DecidableEq

structure ExperienceDict where
  experience_levels : Option ExpLevelsSubDict := none
  experience_history : Option (List ExpHistEntry) := none
  deriving Repr, DecidableEq

namespace ExperienceLevels

def to_dict (e : ExperienceLevels) : ExperienceDict :=
  ⟨some ⟨some e.leadership, some e.negotiation, some e.resource_management,
         some e.crafting, some e.social_manipulation, some e.survival,
         some e.combat⟩,
   some e.experience_history⟩

def from_dict (d : ExperienceDict) : Except String ExperienceLevels :=
  let sub := d.experience_levels.getD {}
  let e : ExperienceLevels :=
    ⟨sub.leadership.getD 0, sub.negotiation.getD 0,
     sub.resource_management.getD 0, sub.crafting.getD 0,
     sub.social_manipulation.getD 0, sub.survival.getD 0, sub.combat.getD 0,
     d.experience_history.getD []⟩
  if e.valid then .ok e else .error "experience must be between 0.0 and 1.0"

end ExperienceLevels

structure TraumaMemoryDict where
  event_type : Option String := none
  original_impact : Option ℚ := none
  current_impact : Option ℚ := none
  age_when_occurred : Option ℤ := none
  description : Option String := none
  related_npcs : Option (List String) := none
  healing_activities : Option (List String) := none
  timestamp : Option String := none
  deriving Repr, DecidableEq

namespace TraumaMemory

def to_dict (m : TraumaMemory) : TraumaMemoryDict :=
  ⟨some m.event_type, some m.original_impact, some m.current_impact,
   some m.age_when_occurred, some m.description, some m.related_npcs,
   some m.healing_activities, some m.timestamp⟩

/-- `from_dict`: `event_type`, `original_impact`, `current_impact`,
`age_when_occurred` and `description` are read with `data[...]` (KeyError
when missing); the rest use `.get` defaults. -/
def from_dict (d : TraumaMemoryDict) (now : String) :
    Except String TraumaMemory :=
  match d.event_type, d.original_impact, d.current_impact,
      d.age_when_occurred, d.description with
  | some et, some oi, some ci, some ai, some de =>
    TraumaMemory.mk? et oi ci ai de (d.related_npcs.getD [])
      (d.healing_activities.getD []) (d.timestamp.getD now)
  | _, _, _, _, _ => .error "KeyError"

end TraumaMemory

structure TraumaStateDict where
  memories : Option (List TraumaMemoryDict) := none
  healing_progress : Option (List (String × ℚ)) := none
  last_healing_activity : Option (Option String) := none
  natural_healing_rate : Option ℚ := none
  deriving Repr, DecidableEq

namespace TraumaState

def to_dict (ts : TraumaState) : TraumaStateDict :=
  ⟨some (ts.memories.map TraumaMemory.to_dict), some ts.healing_progress,
   some ts.last_healing_activity, some ts.natural_healing_rate⟩

def from_dict (d : TraumaStateDict) (now : String) :
    Except String TraumaState :=
  match mapME (fun md => TraumaMemory.from_dict md now)
      (d.memories.getD []) with
  | .error e => .error e
  | .ok ms =>
    .ok ⟨ms, d.healing_progress.getD [],
         d.last_healing_activity.getD none,
         d.natural_healing_rate.getD (1/1000)⟩

end TraumaState

structure RelDimsDict where
  trust : Option ℚ := none
  respect : Option ℚ := none
  affection : Option ℚ := none
  dependency : Option ℚ := none
  fear : Option ℚ := none
  relationship_history : Option (List RelChange) := none
  deriving Repr, DecidableEq

namespace RelationshipDimensions

def to_dict (r : RelationshipDimensions) : RelDimsDict :=
  ⟨some r.trust, some r.respect, some r.affection, some r.dependency,
   some r.fear, some r.relationship_history⟩

def from_dict (d : RelDimsDict) : Except String RelationshipDimensions :=
  let r : RelationshipDimensions :=
    ⟨d.trust.getD (1/2), d.respect.getD (1/2), d.affection.getD (1/2),
     d.dependency.getD 0, d.fear.getD 0, d.relationship_history.getD []⟩
  if r.valid then .ok r else .error "dimension must be between 0.0 and 1.0"

end RelationshipDimensions

namespace RelationshipMatrix

def to_dict (mx : RelationshipMatrix) : List (String × RelDimsDict) :=
  mx.relationships.map (fun p => (p.1, p.2.to_dict))

def from_dict (d : List (String × RelDimsDict)) :
    Except String RelationshipMatrix :=
  match mapME (fun p =>
      match RelationshipDimensions.from_dict p.2 with
      | .error e => .error e
      | .ok rel => .ok (p.1, rel)) d with
  | .error e => .error e
  | .ok entries => .ok ⟨entries⟩

end RelationshipMatrix

structure NPCDict where
  npc_id : Option String := none
  name : Option String := none
  age : Option ℤ := none
  health : Option ℚ := none
  hunger_level : Option ℚ := none
  energy_level : Option ℚ := none
  personality : Option PersonalityDict := none
  experience : Option ExperienceDict := none
  trauma : Option TraumaStateDict := none
  relationships : Option (List (String × RelDimsDict)) := none
  last_action : Option (Option String) := none
  last_action_success : Option (Option Bool) := none
  days_alive : Option ℤ := none
  creation_timestamp : Option String := none
  deriving Repr, DecidableEq

namespace NPCState

def to_dict (npc : NPCState) : NPCDict :=
  ⟨some npc.npc_id, some npc.name, some npc.age, some npc.health,
   some npc.hunger_level, some npc.energy_level,
   some npc.personality.to_dict, some npc.experience.to_dict,
   some npc.trauma.to_dict, some npc.relationships.to_dict,
   some npc.last_action, some npc.last_action_success, some npc.days_alive,
   some npc.creation_timestamp⟩

/-- `from_dict`: `npc_id` is required (`data['npc_id']`), everything else
defaults; `__post_init__` validates the vitals and substitutes the name
default for an empty name; the four subsystem records are reconstructed
only when their keys are present, else the dataclass factories give fresh
defaults. -/
def from_dict (d : NPCDict) (now : String) : Except String NPCState :=
  match d.npc_id with
  | none => .error "KeyError: npc_id"
  | some npc_id =>
    let name0 := d.name.getD ""
    let base : NPCState :=
      { npc_id := npc_id,
        name := if name0 = "" then "NPC_" ++ npc_id else name0,
        age := d.age.getD 25,
        health := d.health.getD (4/5),
        hunger_level := d.hunger_level.getD (1/2),
        energy_level := d.energy_level.getD (7/10),
        last_action := d.last_action.getD none,
        last_action_success := d.last_action_success.getD none,
        days_alive := d.days_alive.getD 0,
        creation_timestamp := d.creation_timestamp.getD now }
    if base.validVitals then
      match (match d.personality with
             | none => Except.ok ({} : PersonalityTraits)
             | some pd => PersonalityTraits.from_dict pd) with
      | .error e => .error e
      | .ok pers =>
        match (match d.experience with
               | none => Except.ok ({} : ExperienceLevels)
               | some ed => ExperienceLevels.from_dict ed) with
        | .error e => .error e
        | .ok exp =>
          match (match d.trauma with
                 | none => Except.ok ({} : TraumaState)
                 | some td => TraumaState.from_dict td now) with
          | .error e => .error e
          | .ok tr =>
            match (match d.relationships with
                   | none => Except.ok ({} : RelationshipMatrix)
                   | some rd => RelationshipMatrix.from_dict rd) with
            | .error e => .error e
            | .ok mx =>
              .ok { base with
                    personality := pers, experience := exp,
                    trauma := tr, relationships := mx }
    else .error "vitals must be between 0.0 and 1.0"

end NPCState

/-! ## Claim C6: serialization round-trips -/

theorem personality_roundtrip {p : PersonalityTraits} (h : p.valid) :
    PersonalityTraits.from_dict p.to_dict = .ok p := by
  unfold PersonalityTraits.to_dict PersonalityTraits.from_dict
  simp only [Option.getD_some]
  rw [if_pos h]

theorem experience_roundtrip {e : ExperienceLevels} (h : e.valid) :
    ExperienceLevels.from_dict e.to_dict = .ok e := by
  unfold ExperienceLevels.to_dict ExperienceLevels.from_dict
  simp only [Option.getD_some]
  rw [if_pos h]

theorem trauma_memory_roundtrip {m : TraumaMemory} (h : m.valid)
    (now : String) : TraumaMemory.from_dict m.to_dict now = .ok m := by
  obtain ⟨h1, h2, h3, h4⟩ := h
  unfold TraumaMemory.to_dict TraumaMemory.from_dict
  dsimp only
  simp only [Option.getD_some]
  unfold TraumaMemory.mk?
  rw [if_neg (not_lt.mpr h1), if_neg (not_lt.mpr h2),
    if_neg (not_lt.mpr h3), if_neg (not_lt.mpr h4)]

theorem trauma_memories_roundtrip {ms : List TraumaMemory}
    (h : ∀ m ∈ ms, m.valid) (now : String) :
    mapME (fun md => TraumaMemory.from_dict md now)
      (ms.map TraumaMemory.to_dict) = .ok ms := by
  induction ms with
  | nil => rfl
  | cons m t ih =>
    simp only [List.map_cons, mapME]
    rw [trauma_memory_roundtrip (h m (List.mem_cons_self m t)) now,
      ih (fun x hx => h x (List.mem_cons_of_mem m hx))]

theorem trauma_state_roundtrip {ts : TraumaState}
    (h : ∀ m ∈ ts.memories, m.valid) (now : String) :
    TraumaState.from_dict ts.to_dict now = .ok ts := by
  unfold TraumaState.to_dict TraumaState.from_dict
  dsimp only
  simp only [Option.getD_some]
  rw [trauma_memories_roundtrip h now]

theorem rel_dims_roundtrip {r : RelationshipDimensions} (h : r.valid) :
    RelationshipDimensions.from_dict r.to_dict = .ok r := by
  unfold RelationshipDimensions.to_dict RelationshipDimensions.from_dict
  simp only [Option.getD_some]
  rw [if_pos h]

theorem rel_matrix_entries_roundtrip {l : List (String × RelationshipDimensions)}
    (h : ∀ p ∈ l, p.2.valid) :
    mapME (fun p =>
      match RelationshipDimensions.from_dict p.2 with
      | .error e => .error e
      | .ok rel => .ok (p.1, rel))
      (l.map (fun p => (p.1, p.2.to_dict))) = .ok l := by
  induction l with
  | nil => rfl
  | cons p t ih =>
    simp only [List.map_cons, mapME]
    rw [rel_dims_roundtrip (h p (List.mem_cons_self p t)),
      ih (fun x hx => h x (List.mem_cons_of_mem p hx))]

theorem rel_matrix_roundtrip {mx : RelationshipMatrix}
    (h : ∀ p ∈ mx.relationships, p.2.valid) :
    RelationshipMatrix.from_dict mx.to_dict = .ok mx := by
  unfold RelationshipMatrix.to_dict RelationshipMatrix.from_dict
  rw [rel_matrix_entries_roundtrip h]

theorem npc_roundtrip {npc : NPCState} (now : String)
    (hname : npc.name ≠ "") (hv : npc.validVitals)
    (hp : npc.personality.valid) (he : npc.experience.valid)
    (ht : ∀ m ∈ npc.trauma.memories, m.valid)
    (hr : ∀ p ∈ npc.relationships.relationships, p.2.valid) :
    NPCState.from_dict npc.to_dict now = .ok npc := by
  unfold NPCState.to_dict NPCState.from_dict
  dsimp only
  simp only [Option.getD_some]
  rw [if_neg hname]
  split
  · rw [personality_roundtrip hp, experience_roundtrip he,
      trauma_state_roundtrip ht now, rel_matrix_roundtrip hr]
  · rename_i hcon
    exact absurd hv hcon

/-- **C6.**  Serialize-then-reconstruct is the identity for every valid
ExperienceTracker, TraumaLedger, RelationshipGraph and CharacterState
value: `from_dict (to_dict x) = ok x`, full structural equality, so every
history list keeps its length and element order. -/
theorem claim_C6_roundtrip :
    (∀ e : ExperienceLevels, e.valid →
      ExperienceLevels.from_dict e.to_dict = .ok e) ∧
    (∀ (ts : TraumaState) (now : String), (∀ m ∈ ts.memories, m.valid) →
      TraumaState.from_dict ts.to_dict now = .ok ts) ∧
    (∀ mx : RelationshipMatrix, (∀ p ∈ mx.relationships, p.2.valid) →
      RelationshipMatrix.from_dict mx.to_dict = .ok mx) ∧
    (∀ (npc : NPCState) (now : String), npc.name ≠ "" → npc.validVitals →
      npc.personality.valid → npc.experience.valid →
      (∀ m ∈ npc.trauma.memories, m.valid) →
      (∀ p ∈ npc.relationships.relationships, p.2.valid) →
      NPCState.from_dict npc.to_dict now = .ok npc) :=
  ⟨fun _ h => experience_roundtrip h,
   fun _ now h => trauma_state_roundtrip h now,
   fun _ h => rel_matrix_roundtrip h,
   fun _ now hname hv hp he ht hr => npc_roundtrip now hname hv hp he ht hr⟩

def c6Exp : ExperienceLevels :=
  { survival := 1/10,
    experience_history := [⟨"survival", 1/10, 1/10, "src", true, 0, 1/10⟩] }

def c6Trauma : TraumaState :=
  ⟨[⟨"betrayal", 1, 1/2, 3, "d", [], ["s"], "t1"⟩], [("a", 1/4)],
   some "prayer", 1/1000⟩

def c6Rels : RelationshipMatrix :=
  ⟨[("p", ⟨1/2, 1/2, 1/2, 0, 0, [⟨"trust", 1/2, 1/2, 0, "r"⟩]⟩)]⟩

def c6Npc : NPCState :=
  ⟨"w", "NPC_w", 30, 4/5, 1/2, 7/10, {}, c6Exp, c6Trauma, c6Rels,
   some "rest", some true, 7, "t0"⟩

/-- Witness for C6 at a concrete populated NPC (with nonempty histories)
and its components. -/
theorem claim_C6_witness :
    ExperienceLevels.from_dict (ExperienceLevels.to_dict c6Npc.experience) =
      .ok c6Npc.experience ∧
    TraumaState.from_dict (TraumaState.to_dict c6Npc.trauma) "now" =
      .ok c6Npc.trauma ∧
    RelationshipMatrix.from_dict (RelationshipMatrix.to_dict c6Npc.relationships) =
      .ok c6Npc.relationships ∧
    NPCState.from_dict (NPCState.to_dict c6Npc) "now" = .ok c6Npc :=
  ⟨claim_C6_roundtrip.1 c6Npc.experience
      (by norm_num [ExperienceLevels.valid, c6Npc, c6Exp]),
   claim_C6_roundtrip.2.1 c6Npc.trauma "now"
      (by intro m hm
          simp only [c6Npc, c6Trauma, List.mem_singleton] at hm
          subst hm
          norm_num [TraumaMemory.valid]),
   claim_C6_roundtrip.2.2.1 c6Npc.relationships
      (by intro p hp
          simp only [c6Npc, c6Rels, List.mem_singleton] at hp
          subst hp
          norm_num [RelationshipDimensions.valid]),
   claim_C6_roundtrip.2.2.2 c6Npc "now" (by decide)
      (by norm_num [NPCState.validVitals, c6Npc])
      (by norm_num [PersonalityTraits.valid, c6Npc])
      (by norm_num [ExperienceLevels.valid, c6Npc, c6Exp])
      (by intro m hm
          simp only [c6Npc, c6Trauma, List.mem_singleton] at hm
          subst hm
          norm_num [TraumaMemory.valid])
      (by intro p hp
          simp only [c6Npc, c6Rels, List.mem_singleton] at hp
          subst hp
          norm_num [RelationshipDimensions.valid])⟩

/-! ## Claim C8: leniency of from_dict -/

/-- **C8, counterexample.**  Reconstruction is not lenient for every
missing field: `TraumaMemory.from_dict` reads `event_type`,
`original_impact`, `current_impact`, `age_when_occurred` and `description`
with `data[...]`, and `NPCState.from_dict` reads `npc_id` the same way, so
the empty record raises a KeyError instead of succeeding with defaults. -/
theorem claim_C8_counterexample :
    TraumaMemory.from_dict {} "now" = .error "KeyError" ∧
    NPCState.from_dict {} "now" = .error "KeyError: npc_id" :=
  ⟨rfl, rfl⟩

/-- **C8 (amended).**  Reconstruction is lenient for every field read with
`.get`: records missing all optional fields reconstruct with the
documented defaults for every component, but the identity fields —
TraumaMemory's event_type, original_impact, current_impact,
age_when_occurred and description, and CharacterState's npc_id — are
required.  With those present, every other field defaults: traits to 0.5,
skills to 0, trust/respect/affection to 0.5 and dependency/fear to 0,
the healing rate to 0.001, vitals to 0.8/0.5/0.7, age to 25, an empty
name to `NPC_<id>`, and missing timestamps to the current time. -/
theorem claim_C8_lenient_defaults :
    PersonalityTraits.from_dict {} = .ok {} ∧
    ExperienceLevels.from_dict {} = .ok {} ∧
    RelationshipDimensions.from_dict {} = .ok {} ∧
    (∀ now : String, TraumaState.from_dict {} now = .ok {}) ∧
    RelationshipMatrix.from_dict [] = .ok {} ∧
    (∀ now : String,
      TraumaMemory.from_dict
        ⟨some "betrayal", some 1, some (1/2), some 3, some "d",
         none, none, none⟩ now =
      .ok ⟨"betrayal", 1, 1/2, 3, "d", [], [], now⟩) ∧
    (∀ now : String,
      NPCState.from_dict ⟨some "x", none, none, none, none, none, none,
        none, none, none, none, none, none, none⟩ now =
      .ok ⟨"x", "NPC_x", 25, 4/5, 1/2, 7/10, {}, {}, {}, {},
           none, none, 0, now⟩) := by
  refine ⟨?_, ?_, ?_, fun now => rfl, rfl, fun now => ?_, fun now => ?_⟩
  · norm_num [PersonalityTraits.from_dict, PersonalityTraits.valid]
  · norm_num [ExperienceLevels.from_dict, ExperienceLevels.valid]
  · norm_num [RelationshipDimensions.from_dict, RelationshipDimensions.valid]
  · norm_num [TraumaMemory.from_dict, TraumaMemory.mk?]
  · norm_num [NPCState.from_dict, NPCState.validVitals,
      PersonalityTraits.from_dict, ExperienceLevels.from_dict,
      TraumaState.from_dict, RelationshipMatrix.from_dict, mapME]
    rfl

end AmongEquals
